import Mathlib

/-!
Verification of the core of a 6502-based console emulator (CPU
interpreter, PPU state machine, memory bus, serial controller).
The definitions below are a shallow embedding of the emulator
sources: machine integers become natural numbers reduced modulo
2^8 or 2^16 exactly where the source wraps, `bitflags` registers
become either plain naturals (when the source manipulates raw
bits) or records of booleans (for the CPU status register), and
every source function that can `panic!`, hit a `todo!()`, or index
out of bounds returns an `Option`, with `none` marking the abort.
The theorems at the end of the file settle the specification
claims against these definitions.
-/

namespace NesEmu

/-- Pointwise update of a byte store represented as a function,
mirroring an in-place array store `arr[i] = v`. -/
def upd (f : Nat → Nat) (i v : Nat) : Nat → Nat :=
  fun j => if j = i then v else f j

/-! ### Controller (controller.rs)

The live button bitmask is `controllerState`; `curFlag` is the
single-bit shift cursor (`cur_flag : u8`), and `strobe` the strobe
flag. -/

structure Controller where
  strobe : Bool
  curFlag : Nat
  controllerState : Nat
deriving Repr, DecidableEq

/-- Controller::new. -/
def Controller.new : Controller :=
  { strobe := false, curFlag := 1, controllerState := 0 }

/-- Controller::read. Returns the read bit and the next controller
state; with strobe off the cursor shifts left one button (`<<= 1`
on `u8`, so after the eighth button it becomes 0 and every later
read returns 1). -/
def Controller.read (c : Controller) : Nat × Controller :=
  if c.curFlag = 0 then
    (1, c)
  else
    let value := if c.controllerState &&& c.curFlag = c.curFlag then 1 else 0
    let c2 := if !c.strobe then { c with curFlag := (c.curFlag <<< 1) % 256 } else c
    (value, c2)

/-- Controller::peek: the read bit without the shift side effect. -/
def Controller.peek (c : Controller) : Nat :=
  if c.curFlag = 0 then 1
  else if c.controllerState &&& c.curFlag = c.curFlag then 1 else 0

/-- Controller::write: rewinds the shift cursor to the first button
and latches the strobe flag from bit 0 of the written byte. -/
def Controller.write (c : Controller) (data : Nat) : Controller :=
  { c with curFlag := 1, strobe := data &&& 1 == 1 }

/-- Controller state after a read, discarding the read value. -/
def Controller.readDrop (c : Controller) : Controller :=
  (c.read).2

/-- Value returned by the (n+1)-st consecutive read. -/
def Controller.nthRead (c : Controller) (n : Nat) : Nat :=
  ((Controller.readDrop)^[n] c).read.1

/-! ### CPU status register (cpu_state.rs CpuStatus bitflags) -/

structure CpuStatus where
  carry : Bool
  zero : Bool
  intDisable : Bool
  decimal : Bool
  brk : Bool
  always : Bool
  overflow : Bool
  negative : Bool
deriving Repr, DecidableEq

/-- Bit encoding of the status register, matching the bitflags
constants CARRY=1, ZERO=2, INT_DISABLE=4, DECIMAL=8, BRK=16,
ALWAYS=32, OVERFLOW=64, NEGATIVE=128. -/
def CpuStatus.bits (st : CpuStatus) : Nat :=
  (if st.carry then 1 else 0) + (if st.zero then 2 else 0) +
  (if st.intDisable then 4 else 0) + (if st.decimal then 8 else 0) +
  (if st.brk then 16 else 0) + (if st.always then 32 else 0) +
  (if st.overflow then 64 else 0) + (if st.negative then 128 else 0)

/-- Decoding of a status byte (CpuStatus::from_bits; all eight bits
are defined, so `from_bits(..).unwrap()` never fails on a `u8`). -/
def CpuStatus.ofBits (n : Nat) : CpuStatus :=
  { carry := n.testBit 0, zero := n.testBit 1, intDisable := n.testBit 2,
    decimal := n.testBit 3, brk := n.testBit 4, always := n.testBit 5,
    overflow := n.testBit 6, negative := n.testBit 7 }

/-! ### CPU state (cpu_state.rs) -/

structure CpuState where
  ram : Nat → Nat
  regA : Nat
  regX : Nat
  regY : Nat
  status : CpuStatus
  stackPointer : Nat
  programCounter : Nat
  pageCrossFlag : Bool
  branchFlag : Bool
  irqInterruptPoll : Bool
  cycleCounter : Nat

/-- CpuState::new: 2 KiB of zeroed RAM, ALWAYS and INT_DISABLE set,
stack pointer 0xFD, program counter the constant 0x600, cycle
counter 0. -/
def CpuState.new : CpuState :=
  { ram := fun _ => 0, regA := 0, regX := 0, regY := 0,
    status := { carry := false, zero := false, intDisable := true, decimal := false,
                brk := false, always := true, overflow := false, negative := false },
    stackPointer := 0xFD, programCounter := 0x600,
    pageCrossFlag := false, branchFlag := false, irqInterruptPoll := false,
    cycleCounter := 0 }

/-- CpuState::reset: clears the general registers, restores the
stack pointer and status; RAM, program counter, latch flags and the
cycle counter are left untouched (the commented-out lines of the
source). -/
def CpuState.reset (s : CpuState) : CpuState :=
  { s with regA := 0, regX := 0, regY := 0, stackPointer := 0xFD,
           status := { carry := false, zero := false, intDisable := true, decimal := false,
                       brk := false, always := true, overflow := false, negative := false } }

/-! ### PPU registers (ppu/ppu_state.rs) -/

/-- Two-write scroll latch (PpuScroll). -/
structure PpuScroll where
  camPositionX : Nat
  camPositionY : Nat
  isSetPositionX : Bool
deriving Repr, DecidableEq

def PpuScroll.new : PpuScroll :=
  { camPositionX := 0, camPositionY := 0, isSetPositionX := true }

def PpuScroll.write (p : PpuScroll) (byte : Nat) : PpuScroll :=
  if p.isSetPositionX then { p with camPositionX := byte, isSetPositionX := false }
  else { p with camPositionY := byte, isSetPositionX := true }

def PpuScroll.reset (p : PpuScroll) : PpuScroll :=
  { p with isSetPositionX := true }

/-- Two-write VRAM address latch (PpuAddr). `lo` is `data.0`, `hi`
is `data.1` (the six-bit high part); `isSetMsb` selects which byte
the next write sets. -/
structure PpuAddr where
  lo : Nat
  hi : Nat
  isSetMsb : Bool
deriving Repr, DecidableEq

def PpuAddr.new : PpuAddr :=
  { lo := 0, hi := 0, isSetMsb := true }

def PpuAddr.write (a : PpuAddr) (byte : Nat) : PpuAddr :=
  if a.isSetMsb then { a with hi := byte &&& 0x3F, isSetMsb := false }
  else { a with lo := byte, isSetMsb := true }

def PpuAddr.read (a : PpuAddr) : Nat :=
  (a.hi <<< 8) + a.lo

def PpuAddr.increment (a : PpuAddr) (inc : Nat) : PpuAddr :=
  let result := a.read + inc
  { a with hi := (result >>> 8) &&& 0x3F, lo := result % 256 }

def PpuAddr.reset (a : PpuAddr) : PpuAddr :=
  { a with isSetMsb := true }

/-- PpuControl::get_vram_addr_inc_value: 32 when the VRAM_ADDR_INC
bit (0b100) is set, else 1. -/
def ppuctrlVramAddrInc (ctrl : Nat) : Nat :=
  if ctrl.testBit 2 then 32 else 1

/-- PpuControl::is_generate_nmi: the GENERATE_NMI bit (0b1000_0000). -/
def ppuctrlGenerateNmi (ctrl : Nat) : Bool :=
  ctrl.testBit 7

/-- PpuMask::is_show_sprites: the SHOW_SPRITES bit (0b0001_0000). -/
def ppumaskShowSprites (mask : Nat) : Bool :=
  mask.testBit 4

/-! ### PPU state (ppu/ppu_state.rs PpuState)

The pending NMI token field is named `nmi_interrupt_poll` where the
actions consume it. Note the struct holds no VRAM or palette
memory: those arrays live (freshly zero-initialized) inside each
transient PpuBus value. -/

structure PpuState where
  oamData : Nat → Nat
  ppuctrl : Nat
  ppumask : Nat
  ppustatus : Nat
  oamaddr : Nat
  ppuscroll : PpuScroll
  ppuaddr : PpuAddr
  ppudata : Nat
  nmiInterruptPoll : Bool
  cycleCounter : Nat
  curScanline : Nat

/-- PpuState::new. -/
def PpuState.new : PpuState :=
  { oamData := fun _ => 0, ppuctrl := 0, ppumask := 0, ppustatus := 0,
    oamaddr := 0, ppuscroll := PpuScroll.new, ppuaddr := PpuAddr.new,
    ppudata := 0, nmiInterruptPoll := false, cycleCounter := 0, curScanline := 0 }

/-! ### Cartridge (rom.rs) -/

inductive Mirroring where
  | Horizontal
  | Vertical
  | FourScreen
deriving Repr, DecidableEq

structure ROM where
  mirroring : Mirroring
  mapper : Nat
  prgRom : List Nat
  chrRom : List Nat
deriving Repr, DecidableEq

/-- ROM::new: empty program and character data, horizontal
mirroring, mapper 0. -/
def ROM.new : ROM :=
  { mirroring := Mirroring.Horizontal, mapper := 0, prgRom := [], chrRom := [] }

/-! ### PPU bus (ppu/ppu_bus.rs)

PpuBus::new builds `vram: [0; 0x800]` and `palette_table: [0; 32]`
as fresh zeroed fields of the bus value itself, so every bus
carries its own transient arrays. The read/write functions below
therefore take the arrays explicitly; the call sites pass fresh
zero functions, exactly as each `as_ppu_bus()`/`PpuBus::new` call
does in the source. -/

/-- PpuBus::mirror_vram_addr; `none` is the panic on an unexpected
(mirroring, nametable) pair, e.g. FourScreen. -/
def mirrorVramAddr (m : Mirroring) (addr : Nat) : Option Nat :=
  let vramIndex := addr - 0x2000
  let nametableIndex := vramIndex / 0x400
  let mirrorIndex? : Option Nat :=
    match m, nametableIndex with
    | Mirroring.Horizontal, 0 => some 0
    | Mirroring.Horizontal, 1 => some 0
    | Mirroring.Horizontal, 2 => some 1
    | Mirroring.Horizontal, 3 => some 1
    | Mirroring.Vertical, 0 => some 0
    | Mirroring.Vertical, 1 => some 1
    | Mirroring.Vertical, 2 => some 0
    | Mirroring.Vertical, 3 => some 1
    | _, _ => none
  mirrorIndex?.map fun mi => (vramIndex &&& 0xF3FF) ||| (mi <<< 10)

/-- PpuBus read_byte. Pattern tables come from CHR ROM (out of
bounds indexing aborts); nametable ranges read the bus-local
`vram`; the palette ranges are `todo!()`; anything else panics. -/
def ppuBusReadByte (rom : ROM) (vram : Nat → Nat) (index : Nat) : Option Nat :=
  if index ≤ 0x1FFF then rom.chrRom[index]?
  else if index ≤ 0x2FFF then (mirrorVramAddr rom.mirroring index).map vram
  else if index ≤ 0x3EFF then (mirrorVramAddr rom.mirroring (index &&& 0xEFFF)).map vram
  else none

/-- PpuBus write_byte, returning the updated (vram, palette) pair
of the bus value. Writes to CHR ROM panic; palette writes fold the
mirrored entries 0x10/0x14/0x18/0x1C onto 0x00/0x04/0x08/0x0C. -/
def ppuBusWriteByte (rom : ROM) (vram palette : Nat → Nat) (index value : Nat) :
    Option ((Nat → Nat) × (Nat → Nat)) :=
  if index ≤ 0x1FFF then none
  else if index ≤ 0x2FFF then
    (mirrorVramAddr rom.mirroring index).map fun vi => (upd vram vi value, palette)
  else if index ≤ 0x3EFF then
    (mirrorVramAddr rom.mirroring (index &&& 0xEFFF)).map fun vi => (upd vram vi value, palette)
  else if index ≤ 0x3FFF then
    let maskedIndex := index &&& 0x1F
    let paletteIndex :=
      if maskedIndex = 0x10 ∨ maskedIndex = 0x14 ∨ maskedIndex = 0x18 ∨ maskedIndex = 0x1C
      then maskedIndex - 0x10 else maskedIndex
    some (vram, upd palette paletteIndex value)
  else none

/-! ### PPU actions (ppu/ppu_action.rs) -/

/-- PpuAction::write_ppuctrl: store the byte; latch a pending NMI
when GENERATE_NMI transitions 0 to 1 while vblank is set. -/
def PpuState.writePpuctrl (p : PpuState) (data : Nat) : PpuState :=
  let prevGen := ppuctrlGenerateNmi p.ppuctrl
  let p2 := { p with ppuctrl := data % 256 }
  let curGen := ppuctrlGenerateNmi p2.ppuctrl
  if !prevGen && curGen && p2.ppustatus.testBit 7 then
    { p2 with nmiInterruptPoll := true }
  else p2

/-- PpuAction::write_ppumask. -/
def PpuState.writePpumask (p : PpuState) (data : Nat) : PpuState :=
  { p with ppumask := data % 256 }

/-- PpuAction::read_ppustatus: return the bits, clear
VBLANK_STARTED (bit 7) and reset both two-write latches. -/
def PpuState.readPpustatus (p : PpuState) : Nat × PpuState :=
  (p.ppustatus,
   { p with ppustatus := p.ppustatus &&& 0x7F,
            ppuscroll := p.ppuscroll.reset, ppuaddr := p.ppuaddr.reset })

/-- PpuAction::write_oamaddr. -/
def PpuState.writeOamaddr (p : PpuState) (data : Nat) : PpuState :=
  { p with oamaddr := data % 256 }

/-- PpuAction::write_oamdata: store at OAMADDR, increment OAMADDR
with u8 wraparound. -/
def PpuState.writeOamdata (p : PpuState) (data : Nat) : PpuState :=
  { p with oamData := upd p.oamData p.oamaddr data,
           oamaddr := (p.oamaddr + 1) % 256 }

/-- PpuAction::write_oamdma: copy the buffer into OAM starting at
OAMADDR, incrementing OAMADDR (with u8 wraparound) per byte. -/
def PpuState.writeOamdma (p : PpuState) (data : List Nat) : PpuState :=
  data.foldl
    (fun p byte =>
      { p with oamData := upd p.oamData p.oamaddr byte,
               oamaddr := (p.oamaddr + 1) % 256 })
    p

/-- PpuAction::read_oamdata: read at OAMADDR without increment. -/
def PpuState.readOamdata (p : PpuState) : Nat :=
  p.oamData p.oamaddr

/-- PpuAction::write_ppuscroll. -/
def PpuState.writePpuscroll (p : PpuState) (data : Nat) : PpuState :=
  { p with ppuscroll := p.ppuscroll.write data }

/-- PpuAction::write_ppuaddr. -/
def PpuState.writePpuaddr (p : PpuState) (data : Nat) : PpuState :=
  { p with ppuaddr := p.ppuaddr.write data }

/-- PpuAction::read_ppudata: return the delayed buffer, refill the
buffer from a freshly constructed PpuBus (whose vram is a fresh
zero array, as PpuBus::new builds it), then advance the VRAM
address latch by 1 or 32 per PPUCTRL. -/
def PpuState.readPpudata (rom : ROM) (p : PpuState) : Option (Nat × PpuState) :=
  let addr := p.ppuaddr.read
  let result := p.ppudata
  (ppuBusReadByte rom (fun _ => 0) addr).map fun fetched =>
    (result,
     { p with ppudata := fetched,
              ppuaddr := p.ppuaddr.increment (ppuctrlVramAddrInc p.ppuctrl) })

/-- PpuAction::write_ppudata: write through a freshly constructed
PpuBus (the updated bus-local arrays are dropped with the bus),
then advance the VRAM address latch. -/
def PpuState.writePpudata (rom : ROM) (p : PpuState) (data : Nat) : Option PpuState :=
  (ppuBusWriteByte rom (fun _ => 0) (fun _ => 0) p.ppuaddr.read data).map fun _ =>
    { p with ppuaddr := p.ppuaddr.increment (ppuctrlVramAddrInc p.ppuctrl) }

/-- PpuAction::is_sprite_zero_hit. -/
def PpuState.isSpriteZeroHit (p : PpuState) : Bool :=
  (p.oamData 0 == p.curScanline) && (decide (p.oamData 3 ≤ p.cycleCounter))
    && ppumaskShowSprites p.ppumask

/-- PpuAction::update_ppu_and_check_for_new_frame: process one
scanline step once at least 341 dots have accumulated; returns
true exactly on the wrap from scanline 262 back to 0. -/
def PpuState.updatePpuAndCheckForNewFrame (p : PpuState) : Bool × PpuState :=
  if p.cycleCounter < 341 then (false, p)
  else
    let p1 := if p.isSpriteZeroHit then { p with ppustatus := p.ppustatus ||| 0x40 } else p
    let p2 := { p1 with cycleCounter := p1.cycleCounter - 341,
                        curScanline := p1.curScanline + 1 }
    if p2.curScanline = 241 then
      let p3 := { p2 with ppustatus := (p2.ppustatus ||| 0x80) &&& 0xBF }
      if ppuctrlGenerateNmi p3.ppuctrl then ((false, { p3 with nmiInterruptPoll := true }))
      else (false, p3)
    else if 262 ≤ p2.curScanline then
      (true, { p2 with curScanline := 0, nmiInterruptPoll := false,
                       ppustatus := p2.ppustatus &&& 0x3F })
    else (false, p2)

/-! ### Instruction set (cpu/instructions/mod.rs, decode.rs) -/

inductive Opcode where
  | ADC | AND | ASL | BIT
  | BPL | BMI | BVC | BVS | BCC | BCS | BNE | BEQ
  | BRK | CMP | CPX | CPY | DEC | EOR
  | CLC | SEC | CLI | SEI | CLV | CLD | SED
  | INC | JMP | JSR | LDA | LDX | LDY | LSR | NOP | ORA
  | TAX | TXA | DEX | INX | TAY | TYA | DEY | INY
  | ROL | ROR | RTI | RTS | SBC
  | TXS | TSX | PHA | PLA | PHP | PLP | STA | STX | STY
deriving Repr, DecidableEq

inductive AddressingMode where
  | Implicit
  | Accumulator
  | Immediate
  | IndirectJump
  | Relative
  | Absolute
  | AbsoluteJump
  | ZeroPage
  | ZeroPageIndexX
  | ZeroPageIndexY
  | AbsoluteIndexX
  | AbsoluteIndexY
  | IndirectX
  | IndirectY
deriving Repr, DecidableEq

inductive Param where
  | None
  | Value (v : Nat)
  | Address (a : Nat)
deriving Repr, DecidableEq

/-- decode_opcode: map each legal opcode byte to its mnemonic,
addressing mode, and base cycle count; `none` is the
`Err("Opcode not implemented ..")` branch. -/
def decodeOpcode (opcode : Nat) : Option (Opcode × AddressingMode × Nat) :=
  match opcode with
  | 0x69 => some (Opcode.ADC, AddressingMode.Immediate, 2)
  | 0x65 => some (Opcode.ADC, AddressingMode.ZeroPage, 3)
  | 0x75 => some (Opcode.ADC, AddressingMode.ZeroPageIndexX, 4)
  | 0x6D => some (Opcode.ADC, AddressingMode.Absolute, 4)
  | 0x7D => some (Opcode.ADC, AddressingMode.AbsoluteIndexX, 4)
  | 0x79 => some (Opcode.ADC, AddressingMode.AbsoluteIndexY, 4)
  | 0x61 => some (Opcode.ADC, AddressingMode.IndirectX, 6)
  | 0x71 => some (Opcode.ADC, AddressingMode.IndirectY, 5)
  | 0x29 => some (Opcode.AND, AddressingMode.Immediate, 2)
  | 0x25 => some (Opcode.AND, AddressingMode.ZeroPage, 3)
  | 0x35 => some (Opcode.AND, AddressingMode.ZeroPageIndexX, 4)
  | 0x2D => some (Opcode.AND, AddressingMode.Absolute, 4)
  | 0x3D => some (Opcode.AND, AddressingMode.AbsoluteIndexX, 4)
  | 0x39 => some (Opcode.AND, AddressingMode.AbsoluteIndexY, 4)
  | 0x21 => some (Opcode.AND, AddressingMode.IndirectX, 6)
  | 0x31 => some (Opcode.AND, AddressingMode.IndirectY, 5)
  | 0x0A => some (Opcode.ASL, AddressingMode.Accumulator, 2)
  | 0x06 => some (Opcode.ASL, AddressingMode.ZeroPage, 5)
  | 0x16 => some (Opcode.ASL, AddressingMode.ZeroPageIndexX, 6)
  | 0x0E => some (Opcode.ASL, AddressingMode.Absolute, 6)
  | 0x1E => some (Opcode.ASL, AddressingMode.AbsoluteIndexX, 7)
  | 0x10 => some (Opcode.BPL, AddressingMode.Relative, 2)
  | 0x30 => some (Opcode.BMI, AddressingMode.Relative, 2)
  | 0x50 => some (Opcode.BVC, AddressingMode.Relative, 2)
  | 0x70 => some (Opcode.BVS, AddressingMode.Relative, 2)
  | 0x90 => some (Opcode.BCC, AddressingMode.Relative, 2)
  | 0xB0 => some (Opcode.BCS, AddressingMode.Relative, 2)
  | 0xD0 => some (Opcode.BNE, AddressingMode.Relative, 2)
  | 0xF0 => some (Opcode.BEQ, AddressingMode.Relative, 2)
  | 0x24 => some (Opcode.BIT, AddressingMode.ZeroPage, 3)
  | 0x2C => some (Opcode.BIT, AddressingMode.Absolute, 4)
  | 0x00 => some (Opcode.BRK, AddressingMode.Implicit, 7)
  | 0xC9 => some (Opcode.CMP, AddressingMode.Immediate, 2)
  | 0xC5 => some (Opcode.CMP, AddressingMode.ZeroPage, 3)
  | 0xD5 => some (Opcode.CMP, AddressingMode.ZeroPageIndexX, 4)
  | 0xCD => some (Opcode.CMP, AddressingMode.Absolute, 4)
  | 0xDD => some (Opcode.CMP, AddressingMode.AbsoluteIndexX, 4)
  | 0xD9 => some (Opcode.CMP, AddressingMode.AbsoluteIndexY, 4)
  | 0xC1 => some (Opcode.CMP, AddressingMode.IndirectX, 6)
  | 0xD1 => some (Opcode.CMP, AddressingMode.IndirectY, 5)
  | 0xE0 => some (Opcode.CPX, AddressingMode.Immediate, 2)
  | 0xE4 => some (Opcode.CPX, AddressingMode.ZeroPage, 3)
  | 0xEC => some (Opcode.CPX, AddressingMode.Absolute, 4)
  | 0xC0 => some (Opcode.CPY, AddressingMode.Immediate, 2)
  | 0xC4 => some (Opcode.CPY, AddressingMode.ZeroPage, 3)
  | 0xCC => some (Opcode.CPY, AddressingMode.Absolute, 4)
  | 0xC6 => some (Opcode.DEC, AddressingMode.ZeroPage, 5)
  | 0xD6 => some (Opcode.DEC, AddressingMode.ZeroPageIndexX, 6)
  | 0xCE => some (Opcode.DEC, AddressingMode.Absolute, 6)
  | 0xDE => some (Opcode.DEC, AddressingMode.AbsoluteIndexX, 7)
  | 0x49 => some (Opcode.EOR, AddressingMode.Immediate, 2)
  | 0x45 => some (Opcode.EOR, AddressingMode.ZeroPage, 3)
  | 0x55 => some (Opcode.EOR, AddressingMode.ZeroPageIndexX, 4)
  | 0x4D => some (Opcode.EOR, AddressingMode.Absolute, 4)
  | 0x5D => some (Opcode.EOR, AddressingMode.AbsoluteIndexX, 4)
  | 0x59 => some (Opcode.EOR, AddressingMode.AbsoluteIndexY, 4)
  | 0x41 => some (Opcode.EOR, AddressingMode.IndirectX, 6)
  | 0x51 => some (Opcode.EOR, AddressingMode.IndirectY, 5)
  | 0x18 => some (Opcode.CLC, AddressingMode.Implicit, 2)
  | 0x38 => some (Opcode.SEC, AddressingMode.Implicit, 2)
  | 0x58 => some (Opcode.CLI, AddressingMode.Implicit, 2)
  | 0x78 => some (Opcode.SEI, AddressingMode.Implicit, 2)
  | 0xB8 => some (Opcode.CLV, AddressingMode.Implicit, 2)
  | 0xD8 => some (Opcode.CLD, AddressingMode.Implicit, 2)
  | 0xF8 => some (Opcode.SED, AddressingMode.Implicit, 2)
  | 0xE6 => some (Opcode.INC, AddressingMode.ZeroPage, 5)
  | 0xF6 => some (Opcode.INC, AddressingMode.ZeroPageIndexX, 6)
  | 0xEE => some (Opcode.INC, AddressingMode.Absolute, 6)
  | 0xFE => some (Opcode.INC, AddressingMode.AbsoluteIndexX, 7)
  | 0x4C => some (Opcode.JMP, AddressingMode.AbsoluteJump, 3)
  | 0x6C => some (Opcode.JMP, AddressingMode.IndirectJump, 5)
  | 0x20 => some (Opcode.JSR, AddressingMode.AbsoluteJump, 6)
  | 0xA9 => some (Opcode.LDA, AddressingMode.Immediate, 2)
  | 0xA5 => some (Opcode.LDA, AddressingMode.ZeroPage, 3)
  | 0xB5 => some (Opcode.LDA, AddressingMode.ZeroPageIndexX, 4)
  | 0xAD => some (Opcode.LDA, AddressingMode.Absolute, 4)
  | 0xBD => some (Opcode.LDA, AddressingMode.AbsoluteIndexX, 4)
  | 0xB9 => some (Opcode.LDA, AddressingMode.AbsoluteIndexY, 4)
  | 0xA1 => some (Opcode.LDA, AddressingMode.IndirectX, 6)
  | 0xB1 => some (Opcode.LDA, AddressingMode.IndirectY, 5)
  | 0xA2 => some (Opcode.LDX, AddressingMode.Immediate, 2)
  | 0xA6 => some (Opcode.LDX, AddressingMode.ZeroPage, 3)
  | 0xB6 => some (Opcode.LDX, AddressingMode.ZeroPageIndexY, 4)
  | 0xAE => some (Opcode.LDX, AddressingMode.Absolute, 4)
  | 0xBE => some (Opcode.LDX, AddressingMode.AbsoluteIndexY, 4)
  | 0xA0 => some (Opcode.LDY, AddressingMode.Immediate, 2)
  | 0xA4 => some (Opcode.LDY, AddressingMode.ZeroPage, 3)
  | 0xB4 => some (Opcode.LDY, AddressingMode.ZeroPageIndexX, 4)
  | 0xAC => some (Opcode.LDY, AddressingMode.Absolute, 4)
  | 0xBC => some (Opcode.LDY, AddressingMode.AbsoluteIndexX, 4)
  | 0x4A => some (Opcode.LSR, AddressingMode.Accumulator, 2)
  | 0x46 => some (Opcode.LSR, AddressingMode.ZeroPage, 5)
  | 0x56 => some (Opcode.LSR, AddressingMode.ZeroPageIndexX, 6)
  | 0x4E => some (Opcode.LSR, AddressingMode.Absolute, 6)
  | 0x5E => some (Opcode.LSR, AddressingMode.AbsoluteIndexX, 7)
  | 0xEA => some (Opcode.NOP, AddressingMode.Implicit, 2)
  | 0x09 => some (Opcode.ORA, AddressingMode.Immediate, 2)
  | 0x05 => some (Opcode.ORA, AddressingMode.ZeroPage, 3)
  | 0x15 => some (Opcode.ORA, AddressingMode.ZeroPageIndexX, 4)
  | 0x0D => some (Opcode.ORA, AddressingMode.Absolute, 4)
  | 0x1D => some (Opcode.ORA, AddressingMode.AbsoluteIndexX, 4)
  | 0x19 => some (Opcode.ORA, AddressingMode.AbsoluteIndexY, 4)
  | 0x01 => some (Opcode.ORA, AddressingMode.IndirectX, 6)
  | 0x11 => some (Opcode.ORA, AddressingMode.IndirectY, 5)
  | 0xAA => some (Opcode.TAX, AddressingMode.Implicit, 2)
  | 0x8A => some (Opcode.TXA, AddressingMode.Implicit, 2)
  | 0xCA => some (Opcode.DEX, AddressingMode.Implicit, 2)
  | 0xE8 => some (Opcode.INX, AddressingMode.Implicit, 2)
  | 0xA8 => some (Opcode.TAY, AddressingMode.Implicit, 2)
  | 0x98 => some (Opcode.TYA, AddressingMode.Implicit, 2)
  | 0x88 => some (Opcode.DEY, AddressingMode.Implicit, 2)
  | 0xC8 => some (Opcode.INY, AddressingMode.Implicit, 2)
  | 0x2A => some (Opcode.ROL, AddressingMode.Accumulator, 2)
  | 0x26 => some (Opcode.ROL, AddressingMode.ZeroPage, 5)
  | 0x36 => some (Opcode.ROL, AddressingMode.ZeroPageIndexX, 6)
  | 0x2E => some (Opcode.ROL, AddressingMode.Absolute, 6)
  | 0x3E => some (Opcode.ROL, AddressingMode.AbsoluteIndexX, 7)
  | 0x6A => some (Opcode.ROR, AddressingMode.Accumulator, 2)
  | 0x66 => some (Opcode.ROR, AddressingMode.ZeroPage, 5)
  | 0x76 => some (Opcode.ROR, AddressingMode.ZeroPageIndexX, 6)
  | 0x6E => some (Opcode.ROR, AddressingMode.Absolute, 6)
  | 0x7E => some (Opcode.ROR, AddressingMode.AbsoluteIndexX, 7)
  | 0x40 => some (Opcode.RTI, AddressingMode.Implicit, 6)
  | 0x60 => some (Opcode.RTS, AddressingMode.Implicit, 6)
  | 0xE9 => some (Opcode.SBC, AddressingMode.Immediate, 2)
  | 0xE5 => some (Opcode.SBC, AddressingMode.ZeroPage, 3)
  | 0xF5 => some (Opcode.SBC, AddressingMode.ZeroPageIndexX, 4)
  | 0xED => some (Opcode.SBC, AddressingMode.Absolute, 4)
  | 0xFD => some (Opcode.SBC, AddressingMode.AbsoluteIndexX, 4)
  | 0xF9 => some (Opcode.SBC, AddressingMode.AbsoluteIndexY, 4)
  | 0xE1 => some (Opcode.SBC, AddressingMode.IndirectX, 6)
  | 0xF1 => some (Opcode.SBC, AddressingMode.IndirectY, 5)
  | 0x85 => some (Opcode.STA, AddressingMode.ZeroPage, 3)
  | 0x95 => some (Opcode.STA, AddressingMode.ZeroPageIndexX, 4)
  | 0x8D => some (Opcode.STA, AddressingMode.Absolute, 4)
  | 0x9D => some (Opcode.STA, AddressingMode.AbsoluteIndexX, 5)
  | 0x99 => some (Opcode.STA, AddressingMode.AbsoluteIndexY, 5)
  | 0x81 => some (Opcode.STA, AddressingMode.IndirectX, 6)
  | 0x91 => some (Opcode.STA, AddressingMode.IndirectY, 6)
  | 0x9A => some (Opcode.TXS, AddressingMode.Implicit, 2)
  | 0xBA => some (Opcode.TSX, AddressingMode.Implicit, 2)
  | 0x48 => some (Opcode.PHA, AddressingMode.Implicit, 3)
  | 0x68 => some (Opcode.PLA, AddressingMode.Implicit, 4)
  | 0x08 => some (Opcode.PHP, AddressingMode.Implicit, 3)
  | 0x28 => some (Opcode.PLP, AddressingMode.Implicit, 4)
  | 0x86 => some (Opcode.STX, AddressingMode.ZeroPage, 3)
  | 0x96 => some (Opcode.STX, AddressingMode.ZeroPageIndexY, 4)
  | 0x8E => some (Opcode.STX, AddressingMode.Absolute, 4)
  | 0x84 => some (Opcode.STY, AddressingMode.ZeroPage, 3)
  | 0x94 => some (Opcode.STY, AddressingMode.ZeroPageIndexX, 4)
  | 0x8C => some (Opcode.STY, AddressingMode.Absolute, 4)
  | _ => none

/-! ### Console state (nes.rs ActionNES) and CPU bus (cpu/cpu_bus.rs)

The bus is a short-lived view borrowing the CPU, PPU, controller
and cartridge; here it is a function from the composed state. Its
`apuio_reg: [u8; 0x20]` field is freshly zeroed by CpuBus::new on
every construction, so APU/IO reads always see 0 and APU/IO writes
are dropped with the bus value. -/

structure Nes where
  cpu : CpuState
  ppu : PpuState
  controller : Controller
  rom : ROM

/-- ActionNES::new. -/
def Nes.new : Nes :=
  { cpu := CpuState.new, ppu := PpuState.new,
    controller := Controller.new, rom := ROM.new }

/-- CpuBus::read_byte. RAM is mirrored by masking with
RAM_MASK = 0x7FF; PPU registers are selected by masking with
PPU_MASK = 0x7; reads of write-only PPU registers panic (`none`);
0x8000..=0xFFFF reads program ROM, mirroring a single 16 KiB bank.
Reads from 0x4020..=0x7FFF panic. -/
def busReadByte (s : Nes) (index : Nat) : Option (Nat × Nes) :=
  if index ≤ 0x1FFF then
    some (s.cpu.ram (index &&& 0x7FF), s)
  else if index ≤ 0x3FFF then
    match index &&& 0x7 with
    | 2 =>
      let vp := s.ppu.readPpustatus
      some (vp.1, { s with ppu := vp.2 })
    | 4 => some (s.ppu.readOamdata, s)
    | 7 => (PpuState.readPpudata s.rom s.ppu).map fun vp => (vp.1, { s with ppu := vp.2 })
    | _ => none
  else if index = 0x4016 then
    let vc := s.controller.read
    some (vc.1, { s with controller := vc.2 })
  else if index ≤ 0x401F then
    some (0, s)
  else if 0x8000 ≤ index ∧ index ≤ 0xFFFF then
    let idx := index - 0x8000
    let idx := if s.rom.prgRom.length = 0x4000 ∧ 0x4000 ≤ idx then idx % 0x4000 else idx
    (s.rom.prgRom[idx]?).map fun v => (v, s)
  else none

/-- Bytes fetched by the OAMDMA loop: `buffer[i] = read_byte(hi + i)`
for i in 0..count, threading the bus state through each read (the
reads can have PPU or controller side effects). -/
def readDmaBytes (base : Nat) : Nat → Nat → Nes → Option (List Nat × Nes)
  | _, 0, s => some ([], s)
  | i, k + 1, s =>
    (busReadByte s (base + i)).bind fun vs =>
      (readDmaBytes base (i + 1) k vs.2).map fun rest => (vs.1 :: rest.1, rest.2)

/-- CpuBus::write_byte. RAM and PPU registers as for reads (writing
PPUSTATUS panics); 0x4014 performs the 256-byte OAMDMA copy;
0x4016 writes the controller strobe; other APU/IO slots store into
the transient register file (dropped with the bus);
0x4020..=0xFFFF panics ("Attempted write to read only memory"). -/
def busWriteByte (s : Nes) (index value : Nat) : Option Nes :=
  let value := value % 256
  if index ≤ 0x1FFF then
    some { s with cpu := { s.cpu with ram := upd s.cpu.ram (index &&& 0x7FF) value } }
  else if index ≤ 0x3FFF then
    match index &&& 0x7 with
    | 0 => some { s with ppu := s.ppu.writePpuctrl value }
    | 1 => some { s with ppu := s.ppu.writePpumask value }
    | 3 => some { s with ppu := s.ppu.writeOamaddr value }
    | 4 => some { s with ppu := s.ppu.writeOamdata value }
    | 5 => some { s with ppu := s.ppu.writePpuscroll value }
    | 6 => some { s with ppu := s.ppu.writePpuaddr value }
    | 7 => (PpuState.writePpudata s.rom s.ppu value).map fun p => { s with ppu := p }
    | _ => none
  else if index = 0x4014 then
    (readDmaBytes (value <<< 8) 0 256 s).map fun bs =>
      { bs.2 with ppu := bs.2.ppu.writeOamdma bs.1 }
  else if index = 0x4016 then
    some { s with controller := s.controller.write value }
  else if index ≤ 0x401F then
    some s
  else if 0x4020 ≤ index ∧ index ≤ 0xFFFF then
    none
  else none

/-- CpuBus::read_two_bytes: little-endian 16-bit read. -/
def busReadTwoBytes (s : Nes) (index : Nat) : Option (Nat × Nes) :=
  (busReadByte s index).bind fun ls =>
    (busReadByte ls.2 (index + 1)).map fun ms =>
      ((ms.1 <<< 8) + ls.1, ms.2)

/-- CpuBus::read_two_page_bytes: the high byte is read from
`(index as u8).wrapping_add(1) as u16`, i.e. from the zero page at
(index + 1) mod 256. -/
def busReadTwoPageBytes (s : Nes) (index : Nat) : Option (Nat × Nes) :=
  (busReadByte s index).bind fun ls =>
    (busReadByte ls.2 ((index % 256 + 1) % 256)).map fun ms =>
      ((ms.1 <<< 8) + ls.1, ms.2)

/-- CpuBus::read_byte_from_pc: fetch at PC and advance PC. -/
def readByteFromPc (s : Nes) : Option (Nat × Nes) :=
  let readAddr := s.cpu.programCounter
  let s2 := { s with cpu := { s.cpu with programCounter := (s.cpu.programCounter + 1) % 0x10000 } }
  busReadByte s2 readAddr

/-- CpuBus::read_two_bytes_from_pc: fetch two bytes at PC and
advance PC by two. -/
def readTwoBytesFromPc (s : Nes) : Option (Nat × Nes) :=
  let readAddr := s.cpu.programCounter
  let s2 := { s with cpu := { s.cpu with programCounter := (s.cpu.programCounter + 2) % 0x10000 } }
  busReadTwoBytes s2 readAddr

/-! ### CPU actions (cpu/cpu_action.rs) -/

/-- CpuAction::push_to_stack: write at 0x100 + S, then decrement S
with u8 wraparound (the source decrements the register before the
bus write, but the write still targets the old S). -/
def pushToStack (s : Nes) (value : Nat) : Option Nes :=
  let stackAddr := 0x100 + s.cpu.stackPointer
  let s2 := { s with cpu := { s.cpu with stackPointer := (s.cpu.stackPointer + 255) % 256 } }
  busWriteByte s2 stackAddr value

/-- CpuAction::pop_from_stack: increment S with u8 wraparound, then
read at 0x100 + S. -/
def popFromStack (s : Nes) : Option (Nat × Nes) :=
  let s2 := { s with cpu := { s.cpu with stackPointer := (s.cpu.stackPointer + 1) % 256 } }
  busReadByte s2 (0x100 + s2.cpu.stackPointer)

/-- CpuAction::set_zero_flag. -/
def setZeroFlag (s : CpuState) (result : Nat) : CpuState :=
  { s with status := { s.status with zero := result == 0 } }

/-- CpuAction::set_negative_flag. -/
def setNegativeFlag (s : CpuState) (result : Nat) : CpuState :=
  { s with status := { s.status with negative := (result &&& 0x80) != 0 } }

/-- CpuAction::set_carry_flag (argument is the u16 intermediate). -/
def setCarryFlag (s : CpuState) (result : Nat) : CpuState :=
  { s with status := { s.status with carry := decide (0xFF < result) } }

/-! ### Interrupts (cpu/interrupt.rs) -/

structure Interrupt where
  vector : Nat
  isSetBFlag : Bool
  isHardwareInterrupt : Bool
deriving Repr, DecidableEq

/-- NMI_INTERRUPT: vector 0xFFFA, break flag cleared in the pushed
status, interrupt-disable set. -/
def nmiInterrupt : Interrupt :=
  { vector := 0xFFFA, isSetBFlag := false, isHardwareInterrupt := true }

/-- CpuAction::execute_interrupt: push PC high, PC low, and the
status with BRK set per the interrupt kind; set INT_DISABLE per the
interrupt kind; load PC from the little-endian word at the vector. -/
def executeInterrupt (s : Nes) (intr : Interrupt) : Option Nes :=
  let lsb := s.cpu.programCounter % 256
  let msb := s.cpu.programCounter / 256 % 256
  let status := { s.cpu.status with brk := intr.isSetBFlag }
  (pushToStack s msb).bind fun s1 =>
    (pushToStack s1 lsb).bind fun s2 =>
      (pushToStack s2 status.bits).bind fun s3 =>
        let s4 := { s3 with cpu := { s3.cpu with status :=
          { s3.cpu.status with intDisable := intr.isHardwareInterrupt } } }
        (busReadTwoBytes s4 intr.vector).map fun vs =>
          { vs.2 with cpu := { vs.2.cpu with programCounter := vs.1 } }

/-- CpuAction::compute_extra_cycles: one more cycle on a page-cross
for the read instructions in the indexed modes, and for branches
one cycle when taken plus another on a taken page-crossing branch. -/
def computeExtraCycles (s : CpuState) (opcode : Opcode) (mode : AddressingMode) : Nat :=
  match opcode, mode with
  | Opcode.ADC, AddressingMode.AbsoluteIndexX | Opcode.ADC, AddressingMode.AbsoluteIndexY
  | Opcode.ADC, AddressingMode.IndirectY
  | Opcode.AND, AddressingMode.AbsoluteIndexX | Opcode.AND, AddressingMode.AbsoluteIndexY
  | Opcode.AND, AddressingMode.IndirectY
  | Opcode.CMP, AddressingMode.AbsoluteIndexX | Opcode.CMP, AddressingMode.AbsoluteIndexY
  | Opcode.CMP, AddressingMode.IndirectY
  | Opcode.EOR, AddressingMode.AbsoluteIndexX | Opcode.EOR, AddressingMode.AbsoluteIndexY
  | Opcode.EOR, AddressingMode.IndirectY
  | Opcode.LDA, AddressingMode.AbsoluteIndexX | Opcode.LDA, AddressingMode.AbsoluteIndexY
  | Opcode.LDA, AddressingMode.IndirectY
  | Opcode.LDX, AddressingMode.AbsoluteIndexX | Opcode.LDX, AddressingMode.AbsoluteIndexY
  | Opcode.LDX, AddressingMode.IndirectY
  | Opcode.LDY, AddressingMode.AbsoluteIndexX | Opcode.LDY, AddressingMode.AbsoluteIndexY
  | Opcode.LDY, AddressingMode.IndirectY
  | Opcode.ORA, AddressingMode.AbsoluteIndexX | Opcode.ORA, AddressingMode.AbsoluteIndexY
  | Opcode.ORA, AddressingMode.IndirectY
  | Opcode.SBC, AddressingMode.AbsoluteIndexX | Opcode.SBC, AddressingMode.AbsoluteIndexY
  | Opcode.SBC, AddressingMode.IndirectY =>
    if s.pageCrossFlag then 1 else 0
  | Opcode.BPL, _ | Opcode.BMI, _ | Opcode.BVC, _ | Opcode.BVS, _
  | Opcode.BCC, _ | Opcode.BCS, _ | Opcode.BNE, _ | Opcode.BEQ, _ =>
    (if s.branchFlag then 1 else 0) + (if s.branchFlag && s.pageCrossFlag then 1 else 0)
  | _, _ => 0

/-- CpuAction::increment_cycle_counters: the CPU counter advances
by the instruction cycles and the PPU dot counter by three times
that amount. -/
def incrementCycleCounters (s : Nes) (cycles : Nat) : Nes :=
  { s with cpu := { s.cpu with cycleCounter := s.cpu.cycleCounter + cycles },
           ppu := { s.ppu with cycleCounter := s.ppu.cycleCounter + 3 * cycles } }

/-! ### Instruction semantics (cpu/cpu_action.rs, register-only ops) -/

/-- CpuAction::adc: add with carry into A, setting N, V, Z, C. -/
def CpuState.adc (s : CpuState) (parameter : Nat) : CpuState :=
  let carry := if s.status.carry then 1 else 0
  let sum := s.regA + parameter + carry
  let result := sum % 256
  let s1 := setNegativeFlag s result
  let s2 := { s1 with status := { s1.status with overflow :=
    ((parameter ^^^ result) &&& (s1.regA ^^^ result) &&& 0x80) != 0 } }
  let s3 := setCarryFlag (setZeroFlag s2 result) sum
  { s3 with regA := result }

/-- CpuAction::and. -/
def CpuState.and (s : CpuState) (parameter : Nat) : CpuState :=
  let s1 := { s with regA := s.regA &&& parameter }
  setZeroFlag (setNegativeFlag s1 s1.regA) s1.regA

/-- CpuAction::asl_acc. -/
def CpuState.aslAcc (s : CpuState) (parameter : Nat) : CpuState :=
  let result := parameter <<< 1
  let s1 := { s with regA := result % 256 }
  setCarryFlag (setZeroFlag (setNegativeFlag s1 s1.regA) s1.regA) result

/-- CpuAction::bit: Z from A AND M, N from bit 7 of M, V from bit 6
of M. -/
def CpuState.bit (s : CpuState) (parameter : Nat) : CpuState :=
  let result := s.regA &&& parameter
  let s1 := setNegativeFlag s parameter
  let s2 := { s1 with status := { s1.status with overflow := (parameter &&& 0x40) != 0 } }
  setZeroFlag s2 result

/-- Shared body of the eight branch functions: record the tested
condition in branch_flag; when taken, sign-extend the offset to 16
bits, add it to PC with u16 wraparound, and record whether the high
bytes of the old and new PC differ in page_cross_flag. -/
def branchExec (cond : Bool) (s : CpuState) (parameter : Nat) : CpuState :=
  let s1 := { s with branchFlag := cond }
  if cond then
    let param := if parameter < 0x80 then parameter else 0xFF00 + parameter
    let newPc := (s1.programCounter + param) % 0x10000
    { s1 with pageCrossFlag := (newPc >>> 8) != (s1.programCounter >>> 8),
              programCounter := newPc }
  else s1

/-- CpuAction::bpl. -/
def CpuState.bpl (s : CpuState) (parameter : Nat) : CpuState :=
  branchExec (!s.status.negative) s parameter

/-- CpuAction::bmi. -/
def CpuState.bmi (s : CpuState) (parameter : Nat) : CpuState :=
  branchExec s.status.negative s parameter

/-- CpuAction::bvc. -/
def CpuState.bvc (s : CpuState) (parameter : Nat) : CpuState :=
  branchExec (!s.status.overflow) s parameter

/-- CpuAction::bvs. -/
def CpuState.bvs (s : CpuState) (parameter : Nat) : CpuState :=
  branchExec s.status.overflow s parameter

/-- CpuAction::bcc. -/
def CpuState.bcc (s : CpuState) (parameter : Nat) : CpuState :=
  branchExec (!s.status.carry) s parameter

/-- CpuAction::bcs. -/
def CpuState.bcs (s : CpuState) (parameter : Nat) : CpuState :=
  branchExec s.status.carry s parameter

/-- CpuAction::bne. -/
def CpuState.bne (s : CpuState) (parameter : Nat) : CpuState :=
  branchExec (!s.status.zero) s parameter

/-- CpuAction::beq. -/
def CpuState.beq (s : CpuState) (parameter : Nat) : CpuState :=
  branchExec s.status.zero s parameter

/-- CpuAction::brk: only sets the break flag (degenerate BRK). -/
def CpuState.brk (s : CpuState) : CpuState :=
  { s with status := { s.status with brk := true } }

/-- CpuAction::cmp. -/
def CpuState.cmp (s : CpuState) (parameter : Nat) : CpuState :=
  let result := (s.regA + 256 - parameter % 256) % 256
  let s1 := setZeroFlag (setNegativeFlag s result) result
  { s1 with status := { s1.status with carry := decide (parameter ≤ s.regA) } }

/-- CpuAction::cpx. -/
def CpuState.cpx (s : CpuState) (parameter : Nat) : CpuState :=
  let result := (s.regX + 256 - parameter % 256) % 256
  let s1 := setZeroFlag (setNegativeFlag s result) result
  { s1 with status := { s1.status with carry := decide (parameter ≤ s.regX) } }

/-- CpuAction::cpy. -/
def CpuState.cpy (s : CpuState) (parameter : Nat) : CpuState :=
  let result := (s.regY + 256 - parameter % 256) % 256
  let s1 := setZeroFlag (setNegativeFlag s result) result
  { s1 with status := { s1.status with carry := decide (parameter ≤ s.regY) } }

/-- CpuAction::eor. -/
def CpuState.eor (s : CpuState) (parameter : Nat) : CpuState :=
  let s1 := { s with regA := s.regA ^^^ parameter }
  setZeroFlag (setNegativeFlag s1 s1.regA) s1.regA

/-- CpuAction::clc. -/
def CpuState.clc (s : CpuState) : CpuState :=
  { s with status := { s.status with carry := false } }

/-- CpuAction::sec. -/
def CpuState.sec (s : CpuState) : CpuState :=
  { s with status := { s.status with carry := true } }

/-- CpuAction::cli. -/
def CpuState.cli (s : CpuState) : CpuState :=
  { s with status := { s.status with intDisable := false } }

/-- CpuAction::sei. -/
def CpuState.sei (s : CpuState) : CpuState :=
  { s with status := { s.status with intDisable := true } }

/-- CpuAction::clv. -/
def CpuState.clv (s : CpuState) : CpuState :=
  { s with status := { s.status with overflow := false } }

/-- CpuAction::cld. -/
def CpuState.cld (s : CpuState) : CpuState :=
  { s with status := { s.status with decimal := false } }

/-- CpuAction::sed. -/
def CpuState.sed (s : CpuState) : CpuState :=
  { s with status := { s.status with decimal := true } }

/-- CpuAction::jmp. -/
def CpuState.jmp (s : CpuState) (address : Nat) : CpuState :=
  { s with programCounter := address }

/-- CpuAction::lda. -/
def CpuState.lda (s : CpuState) (parameter : Nat) : CpuState :=
  let s1 := { s with regA := parameter }
  setZeroFlag (setNegativeFlag s1 s1.regA) s1.regA

/-- CpuAction::ldx. -/
def CpuState.ldx (s : CpuState) (parameter : Nat) : CpuState :=
  let s1 := { s with regX := parameter }
  setZeroFlag (setNegativeFlag s1 s1.regX) s1.regX

/-- CpuAction::ldy. -/
def CpuState.ldy (s : CpuState) (parameter : Nat) : CpuState :=
  let s1 := { s with regY := parameter }
  setZeroFlag (setNegativeFlag s1 s1.regY) s1.regY

/-- CpuAction::lsr_acc. -/
def CpuState.lsrAcc (s : CpuState) (parameter : Nat) : CpuState :=
  let s1 := { s with regA := parameter >>> 1 }
  let s2 := setZeroFlag (setNegativeFlag s1 s1.regA) s1.regA
  { s2 with status := { s2.status with carry := parameter % 2 == 1 } }

/-- CpuAction::ora. -/
def CpuState.ora (s : CpuState) (parameter : Nat) : CpuState :=
  let s1 := { s with regA := s.regA ||| parameter }
  setZeroFlag (setNegativeFlag s1 s1.regA) s1.regA

/-- CpuAction::tax. -/
def CpuState.tax (s : CpuState) : CpuState :=
  let s1 := { s with regX := s.regA }
  setZeroFlag (setNegativeFlag s1 s1.regX) s1.regX

/-- CpuAction::txa. -/
def CpuState.txa (s : CpuState) : CpuState :=
  let s1 := { s with regA := s.regX }
  setZeroFlag (setNegativeFlag s1 s1.regA) s1.regA

/-- CpuAction::dex (u8 wraparound). -/
def CpuState.dex (s : CpuState) : CpuState :=
  let s1 := { s with regX := (s.regX + 255) % 256 }
  setZeroFlag (setNegativeFlag s1 s1.regX) s1.regX

/-- CpuAction::inx (u8 wraparound). -/
def CpuState.inx (s : CpuState) : CpuState :=
  let s1 := { s with regX := (s.regX + 1) % 256 }
  setZeroFlag (setNegativeFlag s1 s1.regX) s1.regX

/-- CpuAction::tay. -/
def CpuState.tay (s : CpuState) : CpuState :=
  let s1 := { s with regY := s.regA }
  setZeroFlag (setNegativeFlag s1 s1.regY) s1.regY

/-- CpuAction::tya. -/
def CpuState.tya (s : CpuState) : CpuState :=
  let s1 := { s with regA := s.regY }
  setZeroFlag (setNegativeFlag s1 s1.regA) s1.regA

/-- CpuAction::dey (u8 wraparound). -/
def CpuState.dey (s : CpuState) : CpuState :=
  let s1 := { s with regY := (s.regY + 255) % 256 }
  setZeroFlag (setNegativeFlag s1 s1.regY) s1.regY

/-- CpuAction::iny (u8 wraparound). -/
def CpuState.iny (s : CpuState) : CpuState :=
  let s1 := { s with regY := (s.regY + 1) % 256 }
  setZeroFlag (setNegativeFlag s1 s1.regY) s1.regY

/-- CpuAction::rol_acc: 9-bit rotate left through carry. -/
def CpuState.rolAcc (s : CpuState) (parameter : Nat) : CpuState :=
  let result := (parameter <<< 1) + (if s.status.carry then 1 else 0)
  let s1 := { s with regA := result % 256 }
  setCarryFlag (setZeroFlag (setNegativeFlag s1 s1.regA) s1.regA) result

/-- CpuAction::ror_acc: rotate right, carry into bit 7, bit 0 into
carry. -/
def CpuState.rorAcc (s : CpuState) (parameter : Nat) : CpuState :=
  let result := (parameter >>> 1) + (if s.status.carry then 0x80 else 0)
  let s1 := { s with regA := result }
  let s2 := setZeroFlag (setNegativeFlag s1 result) result
  { s2 with status := { s2.status with carry := parameter % 2 == 1 } }

/-- CpuAction::sbc: ADC of the bitwise complement. -/
def CpuState.sbc (s : CpuState) (parameter : Nat) : CpuState :=
  s.adc (parameter ^^^ 0xFF)

/-- CpuAction::txs. -/
def CpuState.txs (s : CpuState) : CpuState :=
  { s with stackPointer := s.regX }

/-- CpuAction::tsx. -/
def CpuState.tsx (s : CpuState) : CpuState :=
  let s1 := { s with regX := s.stackPointer }
  setZeroFlag (setNegativeFlag s1 s1.regX) s1.regX

/-! ### Instruction semantics (cpu/cpu_action.rs, memory and stack ops) -/

/-- CpuAction::asl on a memory operand. -/
def Nes.asl (s : Nes) (address : Nat) : Option Nes :=
  (busReadByte s address).bind fun ps =>
    let result := ps.1 <<< 1
    (busWriteByte ps.2 address result).map fun s2 =>
      { s2 with cpu := setCarryFlag (setZeroFlag (setNegativeFlag s2.cpu (result % 256)) (result % 256)) result }

/-- CpuAction::dec: memory decrement with u8 wraparound. -/
def Nes.dec (s : Nes) (address : Nat) : Option Nes :=
  (busReadByte s address).bind fun ps =>
    let result := (ps.1 + 255) % 256
    (busWriteByte ps.2 address result).map fun s2 =>
      { s2 with cpu := setZeroFlag (setNegativeFlag s2.cpu result) result }

/-- CpuAction::inc: memory increment with u8 wraparound. -/
def Nes.inc (s : Nes) (address : Nat) : Option Nes :=
  (busReadByte s address).bind fun ps =>
    let result := (ps.1 + 1) % 256
    (busWriteByte ps.2 address result).map fun s2 =>
      { s2 with cpu := setZeroFlag (setNegativeFlag s2.cpu result) result }

/-- CpuAction::lsr on a memory operand. -/
def Nes.lsr (s : Nes) (address : Nat) : Option Nes :=
  (busReadByte s address).bind fun ps =>
    let result := ps.1 >>> 1
    (busWriteByte ps.2 address result).map fun s2 =>
      let c := setZeroFlag (setNegativeFlag s2.cpu result) result
      { s2 with cpu := { c with status := { c.status with carry := ps.1 % 2 == 1 } } }

/-- CpuAction::rol on a memory operand. -/
def Nes.rol (s : Nes) (address : Nat) : Option Nes :=
  (busReadByte s address).bind fun ps =>
    let result := (ps.1 <<< 1) + (if ps.2.cpu.status.carry then 1 else 0)
    (busWriteByte ps.2 address result).map fun s2 =>
      { s2 with cpu := setCarryFlag (setZeroFlag (setNegativeFlag s2.cpu (result % 256)) (result % 256)) result }

/-- CpuAction::ror on a memory operand. -/
def Nes.ror (s : Nes) (address : Nat) : Option Nes :=
  (busReadByte s address).bind fun ps =>
    let result := (ps.1 >>> 1) + (if ps.2.cpu.status.carry then 0x80 else 0)
    (busWriteByte ps.2 address result).map fun s2 =>
      let c := setZeroFlag (setNegativeFlag s2.cpu result) result
      { s2 with cpu := { c with status := { c.status with carry := ps.1 % 2 == 1 } } }

/-- CpuAction::jsr: push PC - 1 high then low, jump. -/
def Nes.jsr (s : Nes) (address : Nat) : Option Nes :=
  let programCounter := (s.cpu.programCounter + 0xFFFF) % 0x10000
  (pushToStack s (programCounter / 256 % 256)).bind fun s1 =>
    (pushToStack s1 (programCounter % 256)).map fun s2 =>
      { s2 with cpu := { s2.cpu with programCounter := address } }

/-- CpuAction::plp: pull the status register, clearing BRK and
forcing ALWAYS. -/
def Nes.plp (s : Nes) : Option Nes :=
  (popFromStack s).map fun vs =>
    let st := CpuStatus.ofBits vs.1
    { vs.2 with cpu := { vs.2.cpu with status := { st with brk := false, always := true } } }

/-- CpuAction::rti: PLP, then pull PC low then high. -/
def Nes.rti (s : Nes) : Option Nes :=
  (s.plp).bind fun s1 =>
    (popFromStack s1).bind fun ls =>
      (popFromStack ls.2).map fun ms =>
        { ms.2 with cpu := { ms.2.cpu with programCounter := (ms.1 <<< 8) + ls.1 } }

/-- CpuAction::rts: pull PC low then high, add one. -/
def Nes.rts (s : Nes) : Option Nes :=
  (popFromStack s).bind fun ls =>
    (popFromStack ls.2).map fun ms =>
      { ms.2 with cpu := { ms.2.cpu with programCounter := ((ms.1 <<< 8) + ls.1 + 1) % 0x10000 } }

/-- CpuAction::pha. -/
def Nes.pha (s : Nes) : Option Nes :=
  pushToStack s s.cpu.regA

/-- CpuAction::pla. -/
def Nes.pla (s : Nes) : Option Nes :=
  (popFromStack s).map fun vs =>
    let c := { vs.2.cpu with regA := vs.1 }
    { vs.2 with cpu := setZeroFlag (setNegativeFlag c c.regA) c.regA }

/-- CpuAction::php: push the status with BRK forced on. -/
def Nes.php (s : Nes) : Option Nes :=
  pushToStack s (CpuStatus.bits { s.cpu.status with brk := true })

/-- CpuAction::sta. -/
def Nes.sta (s : Nes) (address : Nat) : Option Nes :=
  busWriteByte s address s.cpu.regA

/-- CpuAction::stx. -/
def Nes.stx (s : Nes) (address : Nat) : Option Nes :=
  busWriteByte s address s.cpu.regX

/-- CpuAction::sty. -/
def Nes.sty (s : Nes) (address : Nat) : Option Nes :=
  busWriteByte s address s.cpu.regY

/-! ### Operand fetch (cpu/cpu_action.rs read_arg) -/

/-- CpuAction::read_arg: fetch 0..2 operand bytes and build the
Param for the addressing mode, setting page_cross_flag for the
indexed absolute and indirect-Y modes, with the documented
page-wrap quirks for IndirectJump and the zero-page pointer
modes. -/
def readArg (s : Nes) (mode : AddressingMode) : Option (Param × Nes) :=
  match mode with
  | AddressingMode.Implicit => some (Param.None, s)
  | AddressingMode.Accumulator => some (Param.Value s.cpu.regA, s)
  | AddressingMode.Immediate | AddressingMode.Relative =>
    (readByteFromPc s).map fun vs => (Param.Value vs.1, vs.2)
  | AddressingMode.IndirectJump =>
    (readTwoBytesFromPc s).bind fun as1 =>
      if as1.1 &&& 0xFF = 0xFF then
        (busReadByte as1.2 as1.1).bind fun ls =>
          (busReadByte ls.2 (as1.1 &&& 0xFF00)).map fun ms =>
            (Param.Address ((ms.1 <<< 8) + ls.1), ms.2)
      else
        (busReadTwoBytes as1.2 as1.1).map fun vs => (Param.Address vs.1, vs.2)
  | AddressingMode.Absolute =>
    (readTwoBytesFromPc s).map fun vs => (Param.Address vs.1, vs.2)
  | AddressingMode.AbsoluteJump =>
    (readTwoBytesFromPc s).map fun vs => (Param.Address vs.1, vs.2)
  | AddressingMode.ZeroPage =>
    (readByteFromPc s).map fun vs => (Param.Address vs.1, vs.2)
  | AddressingMode.ZeroPageIndexX =>
    (readByteFromPc s).map fun vs =>
      (Param.Address ((vs.1 + vs.2.cpu.regX) % 256), vs.2)
  | AddressingMode.ZeroPageIndexY =>
    (readByteFromPc s).map fun vs =>
      (Param.Address ((vs.1 + vs.2.cpu.regY) % 256), vs.2)
  | AddressingMode.AbsoluteIndexX =>
    (readTwoBytesFromPc s).map fun vs =>
      let origMsb := (vs.1 >>> 8) % 256
      let memAddr := (vs.1 + vs.2.cpu.regX) % 0x10000
      let msb := (memAddr >>> 8) % 256
      (Param.Address memAddr,
       { vs.2 with cpu := { vs.2.cpu with pageCrossFlag := origMsb != msb } })
  | AddressingMode.AbsoluteIndexY =>
    (readTwoBytesFromPc s).map fun vs =>
      let origMsb := (vs.1 >>> 8) % 256
      let memAddr := (vs.1 + vs.2.cpu.regY) % 0x10000
      let msb := (memAddr >>> 8) % 256
      (Param.Address memAddr,
       { vs.2 with cpu := { vs.2.cpu with pageCrossFlag := origMsb != msb } })
  | AddressingMode.IndirectX =>
    (readByteFromPc s).bind fun bs =>
      let zeroPageAddr := (bs.1 + bs.2.cpu.regX) % 256
      (busReadTwoPageBytes bs.2 zeroPageAddr).map fun vs => (Param.Address vs.1, vs.2)
  | AddressingMode.IndirectY =>
    (readByteFromPc s).bind fun bs =>
      (busReadTwoPageBytes bs.2 bs.1).map fun vs =>
        let origMsb := (vs.1 >>> 8) % 256
        let memAddr := (vs.1 + vs.2.cpu.regY) % 0x10000
        let msb := (memAddr >>> 8) % 256
        (Param.Address memAddr,
         { vs.2 with cpu := { vs.2.cpu with pageCrossFlag := origMsb != msb } })

/-! ### Instruction dispatch (cpu/cpu_action.rs execute_instruction) -/

/-- CpuAction::execute_instruction: dispatch on mnemonic and
operand shape; an unlisted combination is the `Err("Invalid")`
branch (`none`). -/
def executeInstruction (s : Nes) (opcode : Opcode) (param : Param) : Option Nes :=
  match opcode, param with
  | Opcode.ADC, Param.Value val => some { s with cpu := s.cpu.adc val }
  | Opcode.ADC, Param.Address memAddr =>
    (busReadByte s memAddr).map fun bs => { bs.2 with cpu := bs.2.cpu.adc bs.1 }
  | Opcode.AND, Param.Value val => some { s with cpu := s.cpu.and val }
  | Opcode.AND, Param.Address memAddr =>
    (busReadByte s memAddr).map fun bs => { bs.2 with cpu := bs.2.cpu.and bs.1 }
  | Opcode.ASL, Param.Value val => some { s with cpu := s.cpu.aslAcc val }
  | Opcode.ASL, Param.Address memAddr => s.asl memAddr
  | Opcode.BIT, Param.Value val => some { s with cpu := s.cpu.bit val }
  | Opcode.BIT, Param.Address memAddr =>
    (busReadByte s memAddr).map fun bs => { bs.2 with cpu := bs.2.cpu.bit bs.1 }
  | Opcode.BPL, Param.Value val => some { s with cpu := s.cpu.bpl val }
  | Opcode.BMI, Param.Value val => some { s with cpu := s.cpu.bmi val }
  | Opcode.BVC, Param.Value val => some { s with cpu := s.cpu.bvc val }
  | Opcode.BVS, Param.Value val => some { s with cpu := s.cpu.bvs val }
  | Opcode.BCC, Param.Value val => some { s with cpu := s.cpu.bcc val }
  | Opcode.BCS, Param.Value val => some { s with cpu := s.cpu.bcs val }
  | Opcode.BNE, Param.Value val => some { s with cpu := s.cpu.bne val }
  | Opcode.BEQ, Param.Value val => some { s with cpu := s.cpu.beq val }
  | Opcode.BRK, Param.None => some { s with cpu := s.cpu.brk }
  | Opcode.CMP, Param.Value val => some { s with cpu := s.cpu.cmp val }
  | Opcode.CMP, Param.Address memAddr =>
    (busReadByte s memAddr).map fun bs => { bs.2 with cpu := bs.2.cpu.cmp bs.1 }
  | Opcode.CPX, Param.Value val => some { s with cpu := s.cpu.cpx val }
  | Opcode.CPX, Param.Address memAddr =>
    (busReadByte s memAddr).map fun bs => { bs.2 with cpu := bs.2.cpu.cpx bs.1 }
  | Opcode.CPY, Param.Value val => some { s with cpu := s.cpu.cpy val }
  | Opcode.CPY, Param.Address memAddr =>
    (busReadByte s memAddr).map fun bs => { bs.2 with cpu := bs.2.cpu.cpy bs.1 }
  | Opcode.DEC, Param.Address memAddr => s.dec memAddr
  | Opcode.EOR, Param.Value val => some { s with cpu := s.cpu.eor val }
  | Opcode.EOR, Param.Address memAddr =>
    (busReadByte s memAddr).map fun bs => { bs.2 with cpu := bs.2.cpu.eor bs.1 }
  | Opcode.CLC, Param.None => some { s with cpu := s.cpu.clc }
  | Opcode.SEC, Param.None => some { s with cpu := s.cpu.sec }
  | Opcode.CLI, Param.None => some { s with cpu := s.cpu.cli }
  | Opcode.SEI, Param.None => some { s with cpu := s.cpu.sei }
  | Opcode.CLV, Param.None => some { s with cpu := s.cpu.clv }
  | Opcode.CLD, Param.None => some { s with cpu := s.cpu.cld }
  | Opcode.SED, Param.None => some { s with cpu := s.cpu.sed }
  | Opcode.INC, Param.Address memAddr => s.inc memAddr
  | Opcode.JMP, Param.Address memAddr => some { s with cpu := s.cpu.jmp memAddr }
  | Opcode.JSR, Param.Address memAddr => s.jsr memAddr
  | Opcode.LDA, Param.Value val => some { s with cpu := s.cpu.lda val }
  | Opcode.LDA, Param.Address memAddr =>
    (busReadByte s memAddr).map fun bs => { bs.2 with cpu := bs.2.cpu.lda bs.1 }
  | Opcode.LDX, Param.Value val => some { s with cpu := s.cpu.ldx val }
  | Opcode.LDX, Param.Address memAddr =>
    (busReadByte s memAddr).map fun bs => { bs.2 with cpu := bs.2.cpu.ldx bs.1 }
  | Opcode.LDY, Param.Value val => some { s with cpu := s.cpu.ldy val }
  | Opcode.LDY, Param.Address memAddr =>
    (busReadByte s memAddr).map fun bs => { bs.2 with cpu := bs.2.cpu.ldy bs.1 }
  | Opcode.LSR, Param.Value val => some { s with cpu := s.cpu.lsrAcc val }
  | Opcode.LSR, Param.Address memAddr => s.lsr memAddr
  | Opcode.NOP, Param.None => some s
  | Opcode.ORA, Param.Value val => some { s with cpu := s.cpu.ora val }
  | Opcode.ORA, Param.Address memAddr =>
    (busReadByte s memAddr).map fun bs => { bs.2 with cpu := bs.2.cpu.ora bs.1 }
  | Opcode.TAX, Param.None => some { s with cpu := s.cpu.tax }
  | Opcode.TXA, Param.None => some { s with cpu := s.cpu.txa }
  | Opcode.DEX, Param.None => some { s with cpu := s.cpu.dex }
  | Opcode.INX, Param.None => some { s with cpu := s.cpu.inx }
  | Opcode.TAY, Param.None => some { s with cpu := s.cpu.tay }
  | Opcode.TYA, Param.None => some { s with cpu := s.cpu.tya }
  | Opcode.DEY, Param.None => some { s with cpu := s.cpu.dey }
  | Opcode.INY, Param.None => some { s with cpu := s.cpu.iny }
  | Opcode.ROL, Param.Value val => some { s with cpu := s.cpu.rolAcc val }
  | Opcode.ROL, Param.Address memAddr => s.rol memAddr
  | Opcode.ROR, Param.Value val => some { s with cpu := s.cpu.rorAcc val }
  | Opcode.ROR, Param.Address memAddr => s.ror memAddr
  | Opcode.RTI, Param.None => s.rti
  | Opcode.RTS, Param.None => s.rts
  | Opcode.SBC, Param.Value val => some { s with cpu := s.cpu.sbc val }
  | Opcode.SBC, Param.Address memAddr =>
    (busReadByte s memAddr).map fun bs => { bs.2 with cpu := bs.2.cpu.sbc bs.1 }
  | Opcode.TXS, Param.None => some { s with cpu := s.cpu.txs }
  | Opcode.TSX, Param.None => some { s with cpu := s.cpu.tsx }
  | Opcode.PHA, Param.None => s.pha
  | Opcode.PLA, Param.None => s.pla
  | Opcode.PHP, Param.None => s.php
  | Opcode.PLP, Param.None => s.plp
  | Opcode.STA, Param.Address memAddr => s.sta memAddr
  | Opcode.STX, Param.Address memAddr => s.stx memAddr
  | Opcode.STY, Param.Address memAddr => s.sty memAddr
  | _, _ => none

/-! ### One instruction step (cpu/cpu_action.rs next_cpu_instruction,
nes.rs ActionNES) -/

structure InstructionMetaData where
  cycles : Nat
  mode : AddressingMode
  rawOpcode : Nat
  length : Nat
deriving Repr, DecidableEq

structure Instruction where
  opcode : Opcode
  param : Param
  meta : InstructionMetaData
deriving Repr, DecidableEq

/-- Steps 2 to 5 of CpuAction::next_cpu_instruction: fetch and
decode the opcode, fetch the operand, execute, then add the cycle
count (base plus extras) to the CPU counter and three times it to
the PPU dot counter. -/
def fetchDecodeExecute (s : Nes) : Option (Instruction × Nes) :=
  let startPc := s.cpu.programCounter
  (readByteFromPc s).bind fun rs =>
    (decodeOpcode rs.1).bind fun dec =>
      (readArg rs.2 dec.2.1).bind fun ps =>
        let endPc := ps.2.cpu.programCounter
        let length := (endPc + 0x10000 - startPc) % 0x10000
        (executeInstruction ps.2 dec.1 ps.1).map fun s3 =>
          let cycles := dec.2.2 + computeExtraCycles s3.cpu dec.1 dec.2.1
          let s4 := incrementCycleCounters s3 cycles
          ({ opcode := dec.1, param := ps.1,
             meta := { cycles := cycles, mode := dec.2.1, rawOpcode := rs.1, length := length } },
           s4)

/-- CpuAction::next_cpu_instruction: service a pending NMI first
(consuming the token), then fetch, decode, execute and account
cycles. -/
def nextCpuInstruction (s : Nes) : Option (Instruction × Nes) :=
  let step1 : Option Nes :=
    if s.ppu.nmiInterruptPoll then
      executeInterrupt { s with ppu := { s.ppu with nmiInterruptPoll := false } } nmiInterrupt
    else some s
  step1.bind fetchDecodeExecute

/-- ActionNES::next_ppu_frame is `todo!()`: it panics
unconditionally, so the frame-stepping operation produces no
result on any state. -/
def nextPpuFrame (_s : Nes) : Option (Option Unit × Nes) :=
  none

/-- Cycle accounting over a run of executed instructions: fold
increment_cycle_counters over their per-instruction cycle counts. -/
def applyCycles (s : Nes) (cycleCounts : List Nat) : Nes :=
  cycleCounts.foldl incrementCycleCounters s

/-! ### Claim-specific fixtures -/

/-- The eight branch mnemonics. -/
inductive BranchKind where
  | BPL | BMI | BVC | BVS | BCC | BCS | BNE | BEQ
deriving Repr, DecidableEq

/-- The branch function of each branch mnemonic (CpuAction::bpl ..
CpuAction::beq). -/
def branchStep (k : BranchKind) (s : CpuState) (parameter : Nat) : CpuState :=
  match k with
  | BranchKind.BPL => s.bpl parameter
  | BranchKind.BMI => s.bmi parameter
  | BranchKind.BVC => s.bvc parameter
  | BranchKind.BVS => s.bvs parameter
  | BranchKind.BCC => s.bcc parameter
  | BranchKind.BCS => s.bcs parameter
  | BranchKind.BNE => s.bne parameter
  | BranchKind.BEQ => s.beq parameter

/-- The flag condition each branch mnemonic tests. -/
def branchCondHolds (k : BranchKind) (s : CpuState) : Bool :=
  match k with
  | BranchKind.BPL => !s.status.negative
  | BranchKind.BMI => s.status.negative
  | BranchKind.BVC => !s.status.overflow
  | BranchKind.BVS => s.status.overflow
  | BranchKind.BCC => !s.status.carry
  | BranchKind.BCS => s.status.carry
  | BranchKind.BNE => !s.status.zero
  | BranchKind.BEQ => s.status.zero

/-- The opcode byte of each branch mnemonic. -/
def branchOpcodeByte (k : BranchKind) : Nat :=
  match k with
  | BranchKind.BPL => 0x10
  | BranchKind.BMI => 0x30
  | BranchKind.BVC => 0x50
  | BranchKind.BVS => 0x70
  | BranchKind.BCC => 0x90
  | BranchKind.BCS => 0xB0
  | BranchKind.BNE => 0xD0
  | BranchKind.BEQ => 0xF0

/-- The decoded mnemonic of each branch kind. -/
def branchOpcode (k : BranchKind) : Opcode :=
  match k with
  | BranchKind.BPL => Opcode.BPL
  | BranchKind.BMI => Opcode.BMI
  | BranchKind.BVC => Opcode.BVC
  | BranchKind.BVS => Opcode.BVS
  | BranchKind.BCC => Opcode.BCC
  | BranchKind.BCS => Opcode.BCS
  | BranchKind.BNE => Opcode.BNE
  | BranchKind.BEQ => Opcode.BEQ

/-- Signed value of an 8-bit two's-complement offset byte. -/
def toSigned (b : Nat) : Int :=
  if b < 0x80 then (b : Int) else (b : Int) - 256

/-- PPUDATA round trip driven through the CPU bus: set the VRAM
latch to 0x2000, write 0x42 through register 0x2007, point the
latch back at 0x2000, then read register 0x2007 twice and return
the value of the second read. -/
def ppudataSecondRead : Option Nat :=
  (busWriteByte Nes.new 0x2006 0x20).bind fun s1 =>
    (busWriteByte s1 0x2006 0x00).bind fun s2 =>
      (busWriteByte s2 0x2007 0x42).bind fun s3 =>
        (busWriteByte s3 0x2006 0x20).bind fun s4 =>
          (busWriteByte s4 0x2006 0x00).bind fun s5 =>
            (busReadByte s5 0x2007).bind fun r1 =>
              (busReadByte r1.2 0x2007).map fun r2 => r2.1

/-- Console state with two distinguishable RAM cells, 0x35 and
0x235, used to separate the two candidate high-byte addresses of a
paged 16-bit read at 0x234. -/
def pagedReadNes : Nes :=
  { Nes.new with cpu := { Nes.new.cpu with
      ram := upd (upd (fun _ => 0) 0x35 2) 0x235 1 } }

/-- Console state with a pending NMI token and a full 16 KiB
program bank, used to exercise interrupt servicing. -/
def pendingNmiNes : Nes :=
  { Nes.new with
      ppu := { PpuState.new with nmiInterruptPoll := true },
      rom := { ROM.new with prgRom := List.replicate 0x4000 0 } }

/-! ## Theorems

General-purpose lemmas first, then one theorem per specification
claim (with counterexamples and witnesses where required). -/

/-- Masking with 0x7FF is the identity below 0x800. -/
theorem and_7ff_eq_of_lt (a : Nat) (h : a < 0x800) : a &&& 0x7FF = a := by
  have h2 := Nat.and_pow_two_sub_one_of_lt_two_pow (x := a) (n := 11) (by norm_num at h ⊢; omega)
  norm_num at h2
  exact h2

/-- Masking with 0xFF is reduction modulo 256. -/
theorem and_ff_eq_mod (a : Nat) : a &&& 0xFF = a % 256 := by
  have h2 := Nat.and_pow_two_sub_one_eq_mod a 8
  norm_num at h2
  exact h2

/-- A byte below 0x100 has no bits in the 0xFF00 mask. -/
theorem and_ff00_eq_zero (a : Nat) (h : a < 0x100) : a &&& 0xFF00 = 0 := by
  apply Nat.eq_of_testBit_eq
  intro i
  rw [Nat.testBit_land, Nat.zero_testBit]
  by_cases hi : i < 8
  · have hmask : (0xFF00 : Nat).testBit i = false := by
      interval_cases i <;> decide
    simp [hmask]
  · have ha : a.testBit i = false := by
      apply Nat.testBit_eq_false_of_lt
      calc a < 0x100 := h
        _ = 2 ^ 8 := by norm_num
        _ ≤ 2 ^ i := Nat.pow_le_pow_right (by norm_num) (by omega)
    simp [ha]

/-- A single bit is present in a mask exactly when the mask tests
that bit. -/
theorem and_two_pow_eq_iff (M i : Nat) : (M &&& 2 ^ i = 2 ^ i) ↔ M.testBit i = true := by
  rw [Nat.and_two_pow]
  cases h : M.testBit i with
  | false =>
    simp only [Bool.toNat_false, Nat.zero_mul]
    constructor
    · intro h2
      exact absurd h2 (Nat.ne_of_lt (Nat.two_pow_pos i))
    · intro h2
      exact absurd h2 (by decide)
  | true => simp

/-- The status register encodes into a single byte. -/
theorem statusBits_lt_256 (st : CpuStatus) : st.bits < 256 := by
  unfold CpuStatus.bits
  have h1 : (if st.carry then 1 else 0) ≤ 1 := by split <;> omega
  have h2 : (if st.zero then 2 else 0) ≤ 2 := by split <;> omega
  have h3 : (if st.intDisable then 4 else 0) ≤ 4 := by split <;> omega
  have h4 : (if st.decimal then 8 else 0) ≤ 8 := by split <;> omega
  have h5 : (if st.brk then 16 else 0) ≤ 16 := by split <;> omega
  have h6 : (if st.always then 32 else 0) ≤ 32 := by split <;> omega
  have h7 : (if st.overflow then 64 else 0) ≤ 64 := by split <;> omega
  have h8 : (if st.negative then 128 else 0) ≤ 128 := by split <;> omega
  omega

/-- A bus read of an address in the RAM window returns the mirrored
RAM cell and leaves the state unchanged. -/
theorem busReadByte_ram (s : Nes) (index : Nat) (h : index ≤ 0x1FFF) :
    busReadByte s index = some (s.cpu.ram (index &&& 0x7FF), s) := by
  unfold busReadByte
  rw [if_pos h]

/-- A push writes the value to 0x100 + S and decrements S with u8
wraparound. -/
theorem pushToStack_eq (s : Nes) (v : Nat) (hsp : s.cpu.stackPointer < 256) (hv : v < 256) :
    pushToStack s v = some { s with cpu := { s.cpu with
      stackPointer := (s.cpu.stackPointer + 255) % 256,
      ram := upd s.cpu.ram (0x100 + s.cpu.stackPointer) v } } := by
  unfold pushToStack busWriteByte
  have h1 : 0x100 + s.cpu.stackPointer ≤ 0x1FFF := by omega
  have h2 : (0x100 + s.cpu.stackPointer) &&& 0x7FF = 0x100 + s.cpu.stackPointer :=
    and_7ff_eq_of_lt _ (by omega)
  simp only [h1, if_pos, h2, Nat.mod_eq_of_lt hv]

/-- Accumulated OAMADDR movement of an OAMDMA copy: one wrapping
increment per copied byte. -/
theorem writeOamdma_oamaddr (data : List Nat) (p : PpuState) (h : p.oamaddr < 256) :
    (p.writeOamdma data).oamaddr = (p.oamaddr + data.length) % 256 := by
  induction data generalizing p with
  | nil =>
    simp [PpuState.writeOamdma, Nat.mod_eq_of_lt h]
  | cons b rest ih =>
    have step :
        p.writeOamdma (b :: rest) =
          PpuState.writeOamdma
            { p with oamData := upd p.oamData p.oamaddr b,
                     oamaddr := (p.oamaddr + 1) % 256 } rest := by
      simp [PpuState.writeOamdma]
    rw [step, ih _ (Nat.mod_lt _ (by omega))]
    simp only [List.length_cons]
    omega

/-- C10: for every starting OAMADDR value and every 256-byte source
buffer, the OAMDMA copy performs exactly 256 wrapping increments of
the 8-bit OAMADDR counter, so OAMADDR ends where it began. -/
theorem oamdma_preserves_oamaddr (p : PpuState) (data : List Nat)
    (hlen : data.length = 256) (haddr : p.oamaddr < 256) :
    (p.writeOamdma data).oamaddr = p.oamaddr := by
  rw [writeOamdma_oamaddr data p haddr, hlen]
  omega

/-- C10 witness: a concrete OAMDMA transfer of 256 bytes starting
at OAMADDR 0x10 ends with OAMADDR 0x10. -/
theorem oamdma_preserves_oamaddr_witness :
    ((List.replicate 256 7).length = 256 ∧ PpuState.new.oamaddr < 256) ∧
    (PpuState.new.writeOamdma (List.replicate 256 7)).oamaddr = PpuState.new.oamaddr :=
  ⟨⟨List.length_replicate 256 7, by decide⟩,
   oamdma_preserves_oamaddr _ _ (List.length_replicate 256 7) (by decide)⟩

/-- C9: any controller write rewinds the shift cursor to the first
button, so the next read returns the A-button bit of the live mask;
in particular a write of 0 with strobe already off restarts the
eight-button sequence from A. -/
theorem controller_write_rewinds (c : Controller) (b : Nat) :
    (c.write b).curFlag = 1 ∧
    ((c.write b).read).1 = (if c.controllerState.testBit 0 then 1 else 0) := by
  constructor
  · rfl
  · unfold Controller.read Controller.write
    have h1 : (c.controllerState &&& 2 ^ 0 = 2 ^ 0) ↔ c.controllerState.testBit 0 = true :=
      and_two_pow_eq_iff c.controllerState 0
    norm_num at h1
    simp only [h1]
    split
    · omega
    · split <;> simp_all

/-- C5 counterexample: the cycle counter is 0, not 7, after
CpuState::new, and reset leaves it 0 as well. -/
theorem cpu_init_cycle_counter_counterexample :
    CpuState.new.cycleCounter = 0 ∧ (CpuState.new.reset).cycleCounter = 0 ∧ (0 : Nat) ≠ 7 :=
  ⟨rfl, rfl, by decide⟩

/-- C5 amended: after CpuState::new, U and I are set, S = 0xFD, the
program counter is the constant 0x600 (the reset vector at 0xFFFC
is not consulted) and the cycle counter is 0; reset restores U, I
and S but leaves the program counter and cycle counter unchanged. -/
theorem cpu_init_state :
    CpuState.new.status.always = true ∧ CpuState.new.status.intDisable = true ∧
    CpuState.new.stackPointer = 0xFD ∧ CpuState.new.programCounter = 0x600 ∧
    CpuState.new.cycleCounter = 0 ∧
    (∀ s : CpuState,
      (s.reset).status.always = true ∧ (s.reset).status.intDisable = true ∧
      (s.reset).stackPointer = 0xFD ∧ (s.reset).programCounter = s.programCounter ∧
      (s.reset).cycleCounter = s.cycleCounter) :=
  ⟨rfl, rfl, rfl, rfl, rfl, fun _ => ⟨rfl, rfl, rfl, rfl, rfl⟩⟩

/-- C6 counterexample: a write to program-ROM address 0x8000 aborts
with a panic (no successor state), instead of returning an
IllegalWrite error to the host. -/
theorem rom_write_counterexample : busWriteByte Nes.new 0x8000 0 = none := by
  rfl

/-- C6 amended: every CPU bus write to 0x4020..=0xFFFF (so in
particular to the program-ROM window 0x8000..=0xFFFF) panics
("Attempted write to read only memory"), modeled as producing no
successor state, rather than returning an IllegalWrite error value
through the step function. -/
theorem rom_write_panics (s : Nes) (index value : Nat)
    (h1 : 0x4020 ≤ index) (h2 : index ≤ 0xFFFF) :
    busWriteByte s index value = none := by
  unfold busWriteByte
  rw [if_neg (by omega : ¬ index ≤ 0x1FFF), if_neg (by omega : ¬ index ≤ 0x3FFF),
      if_neg (by omega : ¬ index = 0x4014), if_neg (by omega : ¬ index = 0x4016),
      if_neg (by omega : ¬ index ≤ 0x401F)]
  split <;> rfl

/-- C6 witness: the blanket panic theorem applied at a concrete
in-range write. -/
theorem rom_write_panics_witness :
    ((0x4020 : Nat) ≤ 0x9000 ∧ (0x9000 : Nat) ≤ 0xFFFF) ∧
    busWriteByte Nes.new 0x9000 1 = none :=
  ⟨⟨by decide, by decide⟩, rom_write_panics Nes.new 0x9000 1 (by decide) (by decide)⟩

/-- C3: over any run of instructions the PPU dot counter advances
by exactly three dots per CPU cycle; but the facade frame-stepping
operation (ActionNES::next_ppu_frame) is `todo!()` and panics on
every state, so no frame-completion signal is observable through
it. -/
theorem ppu_dot_clock_and_frame_stepping :
    (∀ (s : Nes) (cycleCounts : List Nat),
      (applyCycles s cycleCounts).ppu.cycleCounter =
        s.ppu.cycleCounter + 3 * cycleCounts.sum ∧
      (applyCycles s cycleCounts).cpu.cycleCounter =
        s.cpu.cycleCounter + cycleCounts.sum) ∧
    (∀ s : Nes, nextPpuFrame s = none) := by
  constructor
  · intro s cycleCounts
    induction cycleCounts generalizing s with
    | nil => simp [applyCycles]
    | cons c rest ih =>
      have step : applyCycles s (c :: rest) = applyCycles (incrementCycleCounters s c) rest := by
        simp [applyCycles]
      obtain ⟨ihp, ihc⟩ := ih (incrementCycleCounters s c)
      rw [step]
      constructor
      · rw [ihp]
        simp [incrementCycleCounters, List.sum_cons]
        ring
      · rw [ihc]
        simp [incrementCycleCounters, List.sum_cons]
        ring
  · intro _
    rfl

/-- C1: the byte 0x42 written at VRAM address 0x2000 through
PPUDATA is discarded (each PpuBus carries freshly zeroed local
vram), so after pointing the latch back at 0x2000 the second of
two consecutive PPUDATA reads returns 0, not the written 0x42. -/
theorem ppudata_write_discarded : ppudataSecondRead = some 0 ∧ (0 : Nat) ≠ 0x42 :=
  ⟨rfl, by decide⟩

/-- C7 counterexample: at a = 0x234 the paged 16-bit read fetches
its high byte from 0x0035 (the whole address is truncated to u8
before the increment), not from 0x0235 as the claim's formula
(a AND 0xFF00) OR ((a + 1) AND 0x00FF) requires, so the result is
0x200 instead of 0x100. -/
theorem paged_read_counterexample :
    (busReadTwoPageBytes pagedReadNes 0x234).map Prod.fst = some 0x200 ∧
    (busReadTwoPageBytes pagedReadNes 0x234).map Prod.fst ≠
      some ((pagedReadNes.cpu.ram ((0x234 &&& 0xFF00) ||| ((0x234 + 1) &&& 0xFF)) <<< 8) +
        pagedReadNes.cpu.ram 0x234) := by
  constructor
  · rfl
  · decide

/-- C7 amended: read_two_page_bytes fetches the low byte at a and
the high byte at (a + 1) mod 256, i.e. the increment wraps into
page zero; on zero-page addresses a < 0x100 (the only ones the
indirect modes pass) this agrees with the claimed address
(a AND 0xFF00) OR ((a + 1) AND 0x00FF), as proved here. -/
theorem paged_read_zero_page (s : Nes) (a : Nat) (h : a < 0x100) :
    busReadTwoPageBytes s a =
      some ((s.cpu.ram ((a &&& 0xFF00) ||| ((a + 1) &&& 0xFF)) <<< 8) + s.cpu.ram a, s) := by
  have haddr : (a &&& 0xFF00) ||| ((a + 1) &&& 0xFF) = (a % 256 + 1) % 256 := by
    rw [and_ff00_eq_zero a h, and_ff_eq_mod (a + 1)]
    simp only [Nat.zero_or]
    omega
  unfold busReadTwoPageBytes
  rw [busReadByte_ram s a (by omega)]
  simp only [Option.some_bind]
  rw [busReadByte_ram s ((a % 256 + 1) % 256) (by omega)]
  simp only [Option.map_some']
  rw [and_7ff_eq_of_lt a (by omega), and_7ff_eq_of_lt ((a % 256 + 1) % 256) (by omega),
      haddr]

/-- C7 witness: the zero-page agreement applied at address 0x34 of
a fresh console. -/
theorem paged_read_zero_page_witness :
    (0x34 : Nat) < 0x100 ∧
    busReadTwoPageBytes Nes.new 0x34 =
      some ((Nes.new.cpu.ram ((0x34 &&& 0xFF00) ||| ((0x34 + 1) &&& 0xFF)) <<< 8) +
        Nes.new.cpu.ram 0x34, Nes.new) :=
  ⟨by decide, paged_read_zero_page Nes.new 0x34 (by decide)⟩

/-- With strobe off, n reads starting from a rewound cursor leave
the cursor at bit n (truncated to u8, so 0 after eight reads). -/
theorem readDrop_iterate_pow (M : Nat) :
    ∀ i, i ≤ 8 →
      (Controller.readDrop)^[i] { strobe := false, curFlag := 1, controllerState := M } =
        { strobe := false, curFlag := 2 ^ i % 256, controllerState := M } := by
  intro i
  induction i with
  | zero =>
    intro _
    norm_num
  | succ n ih =>
    intro hn
    rw [Function.iterate_succ_apply', ih (by omega)]
    unfold Controller.readDrop Controller.read
    have hlt : 2 ^ n < 256 := by
      calc 2 ^ n ≤ 2 ^ 7 := Nat.pow_le_pow_right (by norm_num) (by omega)
        _ < 256 := by norm_num
    rw [Nat.mod_eq_of_lt hlt]
    have hne : (2 : Nat) ^ n ≠ 0 := (Nat.two_pow_pos n).ne'
    rw [if_neg hne]
    simp only [Bool.not_false, if_pos]
    rw [Nat.shiftLeft_eq]
    norm_num [Nat.pow_succ]

/-- Once the shift cursor reaches 0 it stays there. -/
theorem readDrop_stuck (M : Nat) (j : Nat) :
    (Controller.readDrop)^[j] { strobe := false, curFlag := 0, controllerState := M } =
      { strobe := false, curFlag := 0, controllerState := M } := by
  induction j with
  | zero => rfl
  | succ n ih =>
    rw [Function.iterate_succ_apply', ih]
    rfl

/-- With strobe on, reads never advance the cursor. -/
theorem readDrop_strobe (M : Nat) (j : Nat) :
    (Controller.readDrop)^[j] { strobe := true, curFlag := 1, controllerState := M } =
      { strobe := true, curFlag := 1, controllerState := M } := by
  induction j with
  | zero => rfl
  | succ n ih =>
    rw [Function.iterate_succ_apply', ih]
    rfl

/-- C8: for an 8-bit live mask held constant, after write(0) the
first eight reads return the mask bits LSB-first (A, B, Select,
Start, Up, Down, Left, Right), every later read returns 1, and
after write(1) every read returns bit 0 (the A button) without
advancing. -/
theorem controller_shift (c : Controller) (hM : c.controllerState < 256) :
    (∀ i, i < 8 →
      (c.write 0).nthRead i = (if c.controllerState.testBit i then 1 else 0)) ∧
    (∀ k, 8 ≤ k → (c.write 0).nthRead k = 1) ∧
    (∀ k, (c.write 1).nthRead k = (if c.controllerState.testBit 0 then 1 else 0)) := by
  have hw0 : c.write 0 = { strobe := false, curFlag := 1, controllerState := c.controllerState } := rfl
  have hw1 : c.write 1 = { strobe := true, curFlag := 1, controllerState := c.controllerState } := rfl
  refine ⟨?_, ?_, ?_⟩
  · intro i hi
    unfold Controller.nthRead
    rw [hw0, readDrop_iterate_pow _ i (by omega)]
    have hlt : 2 ^ i < 256 := by
      calc 2 ^ i ≤ 2 ^ 7 := Nat.pow_le_pow_right (by norm_num) (by omega)
        _ < 256 := by norm_num
    unfold Controller.read
    rw [Nat.mod_eq_of_lt hlt]
    rw [if_neg (Nat.two_pow_pos i).ne']
    simp only [and_two_pow_eq_iff]
  · intro k hk
    obtain ⟨j, rfl⟩ : ∃ j, k = j + 8 := ⟨k - 8, by omega⟩
    unfold Controller.nthRead
    rw [hw0, Function.iterate_add_apply, readDrop_iterate_pow _ 8 (le_refl 8)]
    norm_num
    rw [readDrop_stuck]
    rfl
  · intro k
    unfold Controller.nthRead
    rw [hw1, readDrop_strobe]
    unfold Controller.read
    rw [if_neg (by decide : ¬ (1 : Nat) = 0)]
    have hb := and_two_pow_eq_iff c.controllerState 0
    rw [pow_zero] at hb
    simp only [hb]

/-- C8 witness: the shift contract applied to the concrete mask
0xA5. -/
theorem controller_shift_witness :
    ({ Controller.new with controllerState := 0xA5 } : Controller).controllerState < 256 ∧
    ((∀ i, i < 8 →
      (({ Controller.new with controllerState := 0xA5 } : Controller).write 0).nthRead i =
        (if ({ Controller.new with controllerState := 0xA5 } : Controller).controllerState.testBit i
         then 1 else 0)) ∧
    (∀ k, 8 ≤ k →
      (({ Controller.new with controllerState := 0xA5 } : Controller).write 0).nthRead k = 1) ∧
    (∀ k,
      (({ Controller.new with controllerState := 0xA5 } : Controller).write 1).nthRead k =
        (if ({ Controller.new with controllerState := 0xA5 } : Controller).controllerState.testBit 0
         then 1 else 0))) :=
  ⟨by decide, controller_shift _ (by decide)⟩

/-- Every branch mnemonic decodes to the Relative mode with base
cycle count 2. -/
theorem decode_branch (k : BranchKind) :
    decodeOpcode (branchOpcodeByte k) = some (branchOpcode k, AddressingMode.Relative, 2) := by
  cases k <;> rfl

/-- Each branch function is the shared branch body applied to its
tested condition. -/
theorem branchStep_eq (k : BranchKind) (s : CpuState) (offset : Nat) :
    branchStep k s offset = branchExec (branchCondHolds k s) s offset := by
  cases k <;> rfl

/-- Extra-cycle accounting for the branch mnemonics only consults
the branch-taken and page-cross latches. -/
theorem computeExtraCycles_branch (s : CpuState) (k : BranchKind) :
    computeExtraCycles s (branchOpcode k) AddressingMode.Relative =
      (if s.branchFlag then 1 else 0) + (if s.branchFlag && s.pageCrossFlag then 1 else 0) := by
  cases k <;> rfl

/-- Explicit form of a taken branch. -/
theorem branchExec_taken (s : CpuState) (offset : Nat) :
    branchExec true s offset =
      { s with branchFlag := true,
               pageCrossFlag :=
                 (((s.programCounter + (if offset < 0x80 then offset else 0xFF00 + offset)) % 0x10000) >>> 8)
                   != (s.programCounter >>> 8),
               programCounter :=
                 (s.programCounter + (if offset < 0x80 then offset else 0xFF00 + offset)) % 0x10000 } := by
  rfl

/-- Explicit form of a branch that is not taken. -/
theorem branchExec_not_taken (s : CpuState) (offset : Nat) :
    branchExec false s offset = { s with branchFlag := false } := by
  rfl

/-- Wrapping u16 addition of the sign-extended offset byte agrees
with signed two's-complement addition modulo 65536. -/
theorem wrap_signed (pc offset : Nat) (hoff : offset < 256) :
    (((pc + (if offset < 0x80 then offset else 0xFF00 + offset)) % 0x10000 : Nat) : Int) =
      ((pc : Int) + toSigned offset) % 65536 := by
  unfold toSigned
  by_cases h : offset < 0x80
  · rw [if_pos h, if_pos h]
    omega
  · rw [if_neg h, if_neg h]
    omega

/-- C4: for every branch mnemonic, signed 8-bit offset and program
counter taken after the operand fetch: the opcode decodes with base
cycles 2; if the tested condition holds, the new program counter is
PC plus the offset in wrapping two's-complement 16-bit arithmetic
and the total cycle count is 2 + 1 plus one more when the old and
new program counters lie in different 256-byte pages; if the
condition fails, the program counter is unchanged and the total is
2. -/
theorem branch_semantics (k : BranchKind) (s : CpuState) (offset : Nat)
    (hoff : offset < 256) (hpc : s.programCounter < 0x10000) :
    decodeOpcode (branchOpcodeByte k) = some (branchOpcode k, AddressingMode.Relative, 2) ∧
    (branchCondHolds k s = true →
      ((branchStep k s offset).programCounter : Int) =
        ((s.programCounter : Int) + toSigned offset) % 65536 ∧
      2 + computeExtraCycles (branchStep k s offset) (branchOpcode k) AddressingMode.Relative =
        3 + (if (branchStep k s offset).programCounter / 256 = s.programCounter / 256
             then 0 else 1)) ∧
    (branchCondHolds k s = false →
      (branchStep k s offset).programCounter = s.programCounter ∧
      2 + computeExtraCycles (branchStep k s offset) (branchOpcode k) AddressingMode.Relative = 2) := by
  refine ⟨decode_branch k, fun hc => ?_, fun hc => ?_⟩
  · rw [branchStep_eq, hc, branchExec_taken]
    constructor
    · exact wrap_signed s.programCounter offset hoff
    · rw [computeExtraCycles_branch]
      by_cases hp :
          ((s.programCounter + (if offset < 0x80 then offset else 0xFF00 + offset)) % 0x10000) / 256 =
            s.programCounter / 256 <;>
        simp [hp, Nat.shiftRight_eq_div_pow, bne_iff_ne]
  · rw [branchStep_eq, hc, branchExec_not_taken]
    exact ⟨rfl, by rw [computeExtraCycles_branch]; simp⟩

/-- C4 witness: the branch contract applied to BPL at the freshly
initialized CPU with offset 3 (the branch is taken and stays on the
same page). -/
theorem branch_semantics_witness :
    ((3 : Nat) < 256 ∧ CpuState.new.programCounter < 0x10000) ∧
    (decodeOpcode (branchOpcodeByte BranchKind.BPL) =
        some (branchOpcode BranchKind.BPL, AddressingMode.Relative, 2) ∧
      (branchCondHolds BranchKind.BPL CpuState.new = true →
        ((branchStep BranchKind.BPL CpuState.new 3).programCounter : Int) =
          ((CpuState.new.programCounter : Int) + toSigned 3) % 65536 ∧
        2 + computeExtraCycles (branchStep BranchKind.BPL CpuState.new 3)
            (branchOpcode BranchKind.BPL) AddressingMode.Relative =
          3 + (if (branchStep BranchKind.BPL CpuState.new 3).programCounter / 256 =
                CpuState.new.programCounter / 256 then 0 else 1)) ∧
      (branchCondHolds BranchKind.BPL CpuState.new = false →
        (branchStep BranchKind.BPL CpuState.new 3).programCounter = CpuState.new.programCounter ∧
        2 + computeExtraCycles (branchStep BranchKind.BPL CpuState.new 3)
            (branchOpcode BranchKind.BPL) AddressingMode.Relative = 2)) :=
  ⟨⟨by decide, by decide⟩, branch_semantics BranchKind.BPL CpuState.new 3 (by decide) (by decide)⟩

/-- Reading an updated store at the written index gives the written
value. -/
theorem upd_same (f : Nat → Nat) (i v : Nat) : upd f i v i = v := by
  simp [upd]

/-- Reading an updated store elsewhere gives the old value. -/
theorem upd_ne (f : Nat → Nat) (i v j : Nat) (h : j ≠ i) : upd f i v j = f j := by
  simp [upd, h]

/-- A read in the upper-mirror half of a 16 KiB program bank
returns the ROM byte at the address folded modulo 0x4000. -/
theorem busReadByte_prg_mirror (w : Nes) (a : Nat) (h1 : 0x8000 ≤ a) (h2 : a ≤ 0xFFFF)
    (hrom : w.rom.prgRom.length = 0x4000) (h3 : 0x4000 ≤ a - 0x8000) (v : Nat)
    (hv : w.rom.prgRom[(a - 0x8000) % 0x4000]? = some v) :
    busReadByte w a = some (v, w) := by
  simp only [busReadByte]
  rw [if_neg (by omega : ¬ a ≤ 0x1FFF), if_neg (by omega : ¬ a ≤ 0x3FFF),
      if_neg (by omega : ¬ a = 0x4016), if_neg (by omega : ¬ a ≤ 0x401F),
      if_pos ⟨h1, h2⟩, if_pos ⟨hrom, h3⟩, hv]
  rfl

/-- Explicit result of servicing the NMI on any state with a full
16 KiB program bank: the three stack bytes are written at the
wrapping stack addresses, the stack pointer drops by three, the
interrupt-disable flag is set, and the program counter is loaded
little-endian from the mirrored vector at 0xFFFA. -/
theorem executeInterrupt_nmi_eq (u : Nes) (hsp : u.cpu.stackPointer < 256)
    (hpc : u.cpu.programCounter < 0x10000) (hrom : u.rom.prgRom.length = 0x4000) :
    ∃ lo hi, u.rom.prgRom[0x3FFA]? = some lo ∧ u.rom.prgRom[0x3FFB]? = some hi ∧
      executeInterrupt u nmiInterrupt = some
        { u with cpu := { u.cpu with
            ram := upd (upd (upd u.cpu.ram
                     (0x100 + u.cpu.stackPointer) (u.cpu.programCounter / 256 % 256))
                     (0x100 + (u.cpu.stackPointer + 255) % 256) (u.cpu.programCounter % 256))
                     (0x100 + (u.cpu.stackPointer + 254) % 256)
                     (CpuStatus.bits { u.cpu.status with brk := false }),
            stackPointer := (u.cpu.stackPointer + 253) % 256,
            status := { u.cpu.status with intDisable := true },
            programCounter := (hi <<< 8) + lo } } := by
  obtain ⟨lo, hlo⟩ : ∃ lo, u.rom.prgRom[0x3FFA]? = some lo :=
    ⟨_, List.getElem?_eq_getElem (by omega)⟩
  obtain ⟨hi, hhi⟩ : ∃ hi, u.rom.prgRom[0x3FFB]? = some hi :=
    ⟨_, List.getElem?_eq_getElem (by omega)⟩
  refine ⟨lo, hi, hlo, hhi, ?_⟩
  have hmsb : u.cpu.programCounter / 256 % 256 < 256 := Nat.mod_lt _ (by omega)
  have hlsb : u.cpu.programCounter % 256 < 256 := Nat.mod_lt _ (by omega)
  have hbits := statusBits_lt_256 { u.cpu.status with brk := false }
  simp only [executeInterrupt, nmiInterrupt]
  rw [pushToStack_eq u _ hsp hmsb]
  simp only [Option.some_bind]
  rw [pushToStack_eq _ _ (Nat.mod_lt _ (by omega)) hlsb]
  simp only [Option.some_bind]
  rw [pushToStack_eq _ _ (Nat.mod_lt _ (by omega)) hbits]
  simp only [Option.some_bind, busReadTwoBytes]
  rw [busReadByte_prg_mirror _ 0xFFFA (by omega) (by omega) ?hr1 (by omega) lo ?hv1]
  case hr1 => exact hrom
  case hv1 => exact hlo
  simp only [Option.some_bind]
  rw [busReadByte_prg_mirror _ 0xFFFB (by omega) (by omega) ?hr2 (by omega) hi ?hv2]
  case hr2 => exact hrom
  case hv2 => exact hhi
  simp only [Option.map_some']
  have e1 : ((u.cpu.stackPointer + 255) % 256 + 255) % 256 = (u.cpu.stackPointer + 254) % 256 := by
    omega
  rw [e1]
  have e2 : ((u.cpu.stackPointer + 254) % 256 + 255) % 256 = (u.cpu.stackPointer + 253) % 256 := by
    omega
  rw [e2]

/-- C2: whenever the PPU holds a pending NMI token at the start of
next_cpu_instruction, the step services the interrupt before
fetching any opcode: it pushes the PC high byte, the PC low byte,
and the status byte with the break flag cleared, sets the
interrupt-disable flag, loads the PC from the little-endian word at
0xFFFA, and consumes the token; only then does the usual
fetch-decode-execute pipeline run. -/
theorem nmi_serviced_before_fetch (s : Nes)
    (hpoll : s.ppu.nmiInterruptPoll = true)
    (hsp : s.cpu.stackPointer < 256)
    (hpc : s.cpu.programCounter < 0x10000)
    (hrom : s.rom.prgRom.length = 0x4000) :
    ∃ t, executeInterrupt { s with ppu := { s.ppu with nmiInterruptPoll := false } } nmiInterrupt
          = some t ∧
      nextCpuInstruction s = fetchDecodeExecute t ∧
      t.cpu.ram (0x100 + s.cpu.stackPointer) = s.cpu.programCounter / 256 % 256 ∧
      t.cpu.ram (0x100 + (s.cpu.stackPointer + 255) % 256) = s.cpu.programCounter % 256 ∧
      t.cpu.ram (0x100 + (s.cpu.stackPointer + 254) % 256) =
        CpuStatus.bits { s.cpu.status with brk := false } ∧
      t.cpu.stackPointer = (s.cpu.stackPointer + 253) % 256 ∧
      t.cpu.status.intDisable = true ∧
      t.ppu.nmiInterruptPoll = false ∧
      (∃ lo hi, s.rom.prgRom[0x3FFA]? = some lo ∧ s.rom.prgRom[0x3FFB]? = some hi ∧
        t.cpu.programCounter = (hi <<< 8) + lo) := by
  obtain ⟨lo, hi, hlo, hhi, heq⟩ :=
    executeInterrupt_nmi_eq { s with ppu := { s.ppu with nmiInterruptPoll := false } }
      hsp hpc hrom
  refine ⟨_, heq, ?_, ?_, ?_, ?_, ?_, ?_, ?_, lo, hi, hlo, hhi, ?_⟩
  · unfold nextCpuInstruction
    rw [hpoll]
    simp only [if_true, heq, Option.some_bind]
  · have hne1 : 0x100 + s.cpu.stackPointer ≠ 0x100 + (s.cpu.stackPointer + 254) % 256 := by
      omega
    have hne2 : 0x100 + s.cpu.stackPointer ≠ 0x100 + (s.cpu.stackPointer + 255) % 256 := by
      omega
    simp [upd, hne1, hne2]
  · have hne1 : 0x100 + (s.cpu.stackPointer + 255) % 256 ≠
        0x100 + (s.cpu.stackPointer + 254) % 256 := by
      omega
    simp [upd, hne1]
  · simp [upd]
  · rfl
  · rfl
  · rfl
  · rfl

/-- C2 witness: servicing the pending NMI on a fresh console with a
zero-filled 16 KiB program bank. -/
theorem nmi_serviced_before_fetch_witness :
    (pendingNmiNes.ppu.nmiInterruptPoll = true ∧
      pendingNmiNes.cpu.stackPointer < 256 ∧
      pendingNmiNes.cpu.programCounter < 0x10000 ∧
      pendingNmiNes.rom.prgRom.length = 0x4000) ∧
    (∃ t,
      executeInterrupt
          { pendingNmiNes with ppu := { pendingNmiNes.ppu with nmiInterruptPoll := false } }
          nmiInterrupt = some t ∧
      nextCpuInstruction pendingNmiNes = fetchDecodeExecute t ∧
      t.cpu.ram (0x100 + pendingNmiNes.cpu.stackPointer) =
        pendingNmiNes.cpu.programCounter / 256 % 256 ∧
      t.cpu.ram (0x100 + (pendingNmiNes.cpu.stackPointer + 255) % 256) =
        pendingNmiNes.cpu.programCounter % 256 ∧
      t.cpu.ram (0x100 + (pendingNmiNes.cpu.stackPointer + 254) % 256) =
        CpuStatus.bits { pendingNmiNes.cpu.status with brk := false } ∧
      t.cpu.stackPointer = (pendingNmiNes.cpu.stackPointer + 253) % 256 ∧
      t.cpu.status.intDisable = true ∧
      t.ppu.nmiInterruptPoll = false ∧
      (∃ lo hi, pendingNmiNes.rom.prgRom[0x3FFA]? = some lo ∧
        pendingNmiNes.rom.prgRom[0x3FFB]? = some hi ∧
        t.cpu.programCounter = (hi <<< 8) + lo)) :=
  ⟨⟨rfl, by decide, by decide, by exact List.length_replicate 0x4000 0⟩,
   nmi_serviced_before_fetch pendingNmiNes rfl (by decide) (by decide)
     (by exact List.length_replicate 0x4000 0)⟩

end NesEmu
